import Mathlib

/-!
Formal model of the smart-attender repository.

Shallow embedding of the deterministic cores of the two client apps:
the geo utility, the attendance service (QR parsing, proximity, check-in
recording), the device-trust service, the on-device face-recognition
dataset, the shared Gemini task client, the two task HTTP routes, and the
teacher-side QR issuance. JavaScript numbers are modelled as real numbers
(rationals where only schema checks are involved); `Number.POSITIVE_INFINITY`
is modelled with `EReal`'s top element. External effects (the Firestore
store, image capture, fetch, the system clock) are passed in explicitly as
arguments or recorded as effect traces.
-/

/- ----------------------------------------------------------------- -/
/- Geo utility: lib/utils/geo.ts                                      -/
/- ----------------------------------------------------------------- -/

/-- Coordinate pair in degrees, the argument shape of `haversineDistanceMeters`. -/
structure LatLng where
  latitude : ℝ
  longitude : ℝ

/-- Model of the JavaScript runtime function Math.atan2 on real arguments
(standard two-argument arctangent). -/
noncomputable def mathAtan2 (y x : ℝ) : ℝ :=
  if 0 < x then Real.arctan (y / x)
  else if x < 0 ∧ 0 ≤ y then Real.arctan (y / x) + Real.pi
  else if x < 0 then Real.arctan (y / x) - Real.pi
  else if 0 < y then Real.pi / 2
  else if y < 0 then -(Real.pi / 2)
  else 0

/-- degreesToRadians from geo.ts: `(deg * Math.PI) / 180`. -/
noncomputable def degreesToRadians (deg : ℝ) : ℝ :=
  deg * Real.pi / 180

/-- haversineDistanceMeters from geo.ts: great-circle distance with Earth
radius 6,371,000 m, `Math.round`ed to a whole number of meters. -/
noncomputable def haversineDistanceMeters (p q : LatLng) : ℝ :=
  let earthRadiusMeters : ℝ := 6371000
  let dLat := degreesToRadians (q.latitude - p.latitude)
  let dLon := degreesToRadians (q.longitude - p.longitude)
  let lat1 := degreesToRadians p.latitude
  let lat2 := degreesToRadians q.latitude
  let a := Real.sin (dLat / 2) * Real.sin (dLat / 2) +
    Real.cos lat1 * Real.cos lat2 * Real.sin (dLon / 2) * Real.sin (dLon / 2)
  let c := 2 * mathAtan2 (Real.sqrt a) (Real.sqrt (1 - a))
  ((round (earthRadiusMeters * c) : ℤ) : ℝ)

/- ----------------------------------------------------------------- -/
/- Attendance service data shapes: services/attendance.ts             -/
/- ----------------------------------------------------------------- -/

/-- SessionLocationCoordinates from lib/types/session (latitude/longitude in
degrees, optional reported GPS accuracy in meters, optional capture time). -/
structure SessionLocationCoordinates where
  latitude : ℝ
  longitude : ℝ
  accuracy : Option ℝ
  capturedAt : Option String

/-- The studentLocation argument shape of the attendance service
(`accuracy?: number | null` collapses to one optional value). -/
structure StudentLocation where
  latitude : ℝ
  longitude : ℝ
  accuracy : Option ℝ

open Classical in
/-- computeProximity from services/attendance.ts (the device-trust variant):
no target location yields `Number.POSITIVE_INFINITY` (modelled as `⊤ : EReal`);
otherwise the haversine distance minus the combined floored accuracies,
floored at zero, except that a zero combined uncertainty returns the raw
distance unchanged. -/
noncomputable def computeProximity (studentLocation : StudentLocation)
    (targetLocation : Option SessionLocationCoordinates) : EReal :=
  match targetLocation with
  | none => ⊤
  | some target =>
    let rawDistance := haversineDistanceMeters
      ⟨studentLocation.latitude, studentLocation.longitude⟩
      ⟨target.latitude, target.longitude⟩
    let studentAccuracy := max 0 (studentLocation.accuracy.getD 0)
    let targetAccuracy := max 0 (target.accuracy.getD 0)
    let combinedUncertainty := studentAccuracy + targetAccuracy
    if combinedUncertainty = 0 then (rawDistance : EReal)
    else ((max 0 (rawDistance - combinedUncertainty) : ℝ) : EReal)

/- ----------------------------------------------------------------- -/
/- Geo lemmas                                                         -/
/- ----------------------------------------------------------------- -/

theorem mathAtan2_nonneg {y x : ℝ} (hy : 0 ≤ y) (hx : 0 ≤ x) :
    0 ≤ mathAtan2 y x := by
  unfold mathAtan2
  split_ifs with h1 h2 h3 h4 h5
  · exact Real.arctan_zero ▸ Real.arctan_strictMono.monotone (div_nonneg hy (le_of_lt h1))
  · exact absurd h2.1 (not_lt.mpr hx)
  · exact absurd h3 (not_lt.mpr hx)
  · positivity
  · exact absurd h5 (not_lt.mpr hy)
  · exact le_refl 0

theorem mathAtan2_sin_cos {θ : ℝ} (h1 : -(Real.pi / 2) < θ) (h2 : θ < Real.pi / 2) :
    mathAtan2 (Real.sin θ) (Real.cos θ) = θ := by
  have hcos : 0 < Real.cos θ := Real.cos_pos_of_mem_Ioo ⟨h1, h2⟩
  unfold mathAtan2
  rw [if_pos hcos, ← Real.tan_eq_sin_div_cos, Real.arctan_tan h1 h2]

theorem roundedArc_nonneg (a : ℝ) :
    (0 : ℝ) ≤ ((round ((6371000 : ℝ) *
      (2 * mathAtan2 (Real.sqrt a) (Real.sqrt (1 - a)))) : ℤ) : ℝ) := by
  have hat := mathAtan2_nonneg (Real.sqrt_nonneg a) (Real.sqrt_nonneg (1 - a))
  have hx : (0 : ℝ) ≤ 6371000 * (2 * mathAtan2 (Real.sqrt a) (Real.sqrt (1 - a))) := by
    positivity
  rw [Int.cast_nonneg, round_eq, Int.le_floor]
  push_cast
  linarith

theorem haversineDistanceMeters_nonneg (p q : LatLng) :
    0 ≤ haversineDistanceMeters p q := by
  unfold haversineDistanceMeters
  exact roundedArc_nonneg _

theorem haversineDistanceMeters_self (p : LatLng) :
    haversineDistanceMeters p p = 0 := by
  unfold haversineDistanceMeters degreesToRadians
  simp only [sub_self, zero_mul, zero_div, Real.sin_zero, mul_zero, zero_add,
    add_zero, Real.sqrt_zero, sub_zero, Real.sqrt_one]
  have : mathAtan2 0 1 = 0 := by
    unfold mathAtan2
    rw [if_pos one_pos]
    simp [Real.arctan_zero]
  rw [this]
  norm_num

theorem haversineDistanceMeters_equator {d : ℝ} (h0 : 0 ≤ d) (h1 : d < 180) :
    haversineDistanceMeters ⟨0, 0⟩ ⟨0, d⟩ =
      ((round ((6371000 : ℝ) * (d * Real.pi / 180)) : ℤ) : ℝ) := by
  have hpi := Real.pi_pos
  have hh0 : 0 ≤ d * Real.pi / 360 := by positivity
  have hh1 : d * Real.pi / 360 < Real.pi / 2 := by nlinarith
  have hsin : 0 ≤ Real.sin (d * Real.pi / 360) :=
    Real.sin_nonneg_of_nonneg_of_le_pi hh0 (by nlinarith)
  have hcos : 0 < Real.cos (d * Real.pi / 360) :=
    Real.cos_pos_of_mem_Ioo ⟨by linarith, hh1⟩
  have hcossq : 1 - Real.sin (d * Real.pi / 360) * Real.sin (d * Real.pi / 360) =
      Real.cos (d * Real.pi / 360) * Real.cos (d * Real.pi / 360) := by
    have h := Real.sin_sq_add_cos_sq (d * Real.pi / 360)
    nlinarith [h]
  unfold haversineDistanceMeters degreesToRadians
  simp only [sub_zero, sub_self, zero_mul, zero_div, Real.sin_zero, Real.cos_zero,
    one_mul, mul_zero, zero_add, mul_one]
  have hhalf : d * Real.pi / 180 / 2 = d * Real.pi / 360 := by ring
  rw [hhalf, Real.sqrt_mul_self hsin, hcossq, Real.sqrt_mul_self hcos.le,
    mathAtan2_sin_cos (by linarith) hh1]
  have harc : (6371000 : ℝ) * (2 * (d * Real.pi / 360)) = 6371000 * (d * Real.pi / 180) := by
    ring
  rw [harc]

/-- C9: the geo utility computes the great-circle distance on an Earth of
radius 6,371,000 m and rounds to a whole number of meters; the distance from
a point to itself is 0, and the distance between latitude/longitude (0,0)
and (0,1) — one degree of longitude at the equator — is within 50 m of
111,195 m. -/
theorem haversineDistanceMeters_spec :
    (∀ p : LatLng, haversineDistanceMeters p p = 0) ∧
    (∀ p q : LatLng, ∃ n : ℤ, haversineDistanceMeters p q = (n : ℝ)) ∧
    |haversineDistanceMeters ⟨0, 0⟩ ⟨0, 1⟩ - 111195| ≤ 50 := by
  refine ⟨haversineDistanceMeters_self, ?_, ?_⟩
  · intro p q
    exact ⟨_, rfl⟩
  · rw [haversineDistanceMeters_equator (by norm_num) (by norm_num)]
    have h2 : round ((6371000 : ℝ) * (1 * Real.pi / 180)) = 111195 := by
      have hl := Real.pi_gt_d6
      have hu := Real.pi_lt_d6
      rw [round_eq, Int.floor_eq_iff]
      constructor
      · push_cast
        nlinarith
      · push_cast
        nlinarith
    rw [h2]
    norm_num

/- ----------------------------------------------------------------- -/
/- Proximity lemmas (C3)                                              -/
/- ----------------------------------------------------------------- -/

open Classical in
theorem computeProximity_some (s : StudentLocation) (t : SessionLocationCoordinates) :
    computeProximity s (some t) =
      if max 0 (s.accuracy.getD 0) + max 0 (t.accuracy.getD 0) = 0 then
        ((haversineDistanceMeters ⟨s.latitude, s.longitude⟩
          ⟨t.latitude, t.longitude⟩ : ℝ) : EReal)
      else
        ((max 0 (haversineDistanceMeters ⟨s.latitude, s.longitude⟩ ⟨t.latitude, t.longitude⟩ -
          (max 0 (s.accuracy.getD 0) + max 0 (t.accuracy.getD 0))) : ℝ) : EReal) := by
  unfold computeProximity
  rfl

open Classical in
/-- C3: the adjusted proximity is never negative; it is non-increasing in
either side's reported accuracy; with raw haversine distance 40 m, student
accuracy 10 m and session accuracy 5 m it equals 25 m; whenever the reported
accuracies sum to at least the raw distance it is 0; and with both
accuracies absent or 0 the raw distance is returned unmodified. -/
theorem computeProximity_spec :
    (∀ (s : StudentLocation) (t : Option SessionLocationCoordinates),
      0 ≤ computeProximity s t) ∧
    (∀ (lat lon : ℝ) (t : SessionLocationCoordinates) (a a' : ℝ), a ≤ a' →
      computeProximity ⟨lat, lon, some a'⟩ (some t) ≤
        computeProximity ⟨lat, lon, some a⟩ (some t)) ∧
    (∀ (s : StudentLocation) (tlat tlon : ℝ) (cap : Option String) (b b' : ℝ), b ≤ b' →
      computeProximity s (some ⟨tlat, tlon, some b', cap⟩) ≤
        computeProximity s (some ⟨tlat, tlon, some b, cap⟩)) ∧
    (∀ (s : StudentLocation) (t : SessionLocationCoordinates),
      haversineDistanceMeters ⟨s.latitude, s.longitude⟩ ⟨t.latitude, t.longitude⟩ = 40 →
      s.accuracy = some 10 → t.accuracy = some 5 →
      computeProximity s (some t) = ((25 : ℝ) : EReal)) ∧
    (∀ (s : StudentLocation) (t : SessionLocationCoordinates),
      haversineDistanceMeters ⟨s.latitude, s.longitude⟩ ⟨t.latitude, t.longitude⟩ ≤
        s.accuracy.getD 0 + t.accuracy.getD 0 →
      computeProximity s (some t) = ((0 : ℝ) : EReal)) ∧
    (∀ (s : StudentLocation) (t : SessionLocationCoordinates),
      (s.accuracy = none ∨ s.accuracy = some 0) →
      (t.accuracy = none ∨ t.accuracy = some 0) →
      computeProximity s (some t) =
        ((haversineDistanceMeters ⟨s.latitude, s.longitude⟩
          ⟨t.latitude, t.longitude⟩ : ℝ) : EReal)) := by
  have hnn : ∀ (s : StudentLocation) (t : SessionLocationCoordinates),
      0 ≤ haversineDistanceMeters ⟨s.latitude, s.longitude⟩ ⟨t.latitude, t.longitude⟩ :=
    fun s t => haversineDistanceMeters_nonneg _ _
  refine ⟨?_, ?_, ?_, ?_, ?_, ?_⟩
  · intro s t
    match t with
    | none => exact le_top
    | some target =>
      rw [computeProximity_some]
      split_ifs
      · exact EReal.coe_nonneg.mpr (hnn s target)
      · exact EReal.coe_nonneg.mpr (le_max_left 0 _)
  · intro lat lon t a a' haa
    rw [computeProximity_some, computeProximity_some]
    simp only [Option.getD_some]
    set raw := haversineDistanceMeters ⟨lat, lon⟩ ⟨t.latitude, t.longitude⟩ with hraw
    have hrawnn : 0 ≤ raw := haversineDistanceMeters_nonneg _ _
    have hA : max 0 a ≤ max 0 a' := max_le_max le_rfl haa
    have hAnn : (0 : ℝ) ≤ max 0 a := le_max_left 0 _
    have hA'nn : (0 : ℝ) ≤ max 0 a' := le_max_left 0 _
    have hBnn : (0 : ℝ) ≤ max 0 (t.accuracy.getD 0) := le_max_left 0 _
    split_ifs with h1 h2 h2
    · exact le_refl _
    · exact absurd (by linarith : max 0 a + max 0 (t.accuracy.getD 0) = 0) h2
    · rw [EReal.coe_le_coe_iff]
      exact max_le hrawnn (by linarith)
    · rw [EReal.coe_le_coe_iff]
      exact max_le_max le_rfl (by linarith)
  · intro s tlat tlon cap b b' hbb
    rw [computeProximity_some, computeProximity_some]
    simp only [Option.getD_some]
    set raw := haversineDistanceMeters ⟨s.latitude, s.longitude⟩ ⟨tlat, tlon⟩ with hraw
    have hrawnn : 0 ≤ raw := haversineDistanceMeters_nonneg _ _
    have hB : max 0 b ≤ max 0 b' := max_le_max le_rfl hbb
    have hBnn : (0 : ℝ) ≤ max 0 b := le_max_left 0 _
    have hB'nn : (0 : ℝ) ≤ max 0 b' := le_max_left 0 _
    have hAnn : (0 : ℝ) ≤ max 0 (s.accuracy.getD 0) := le_max_left 0 _
    split_ifs with h1 h2 h2
    · exact le_refl _
    · exact absurd (by linarith : max 0 (s.accuracy.getD 0) + max 0 b = 0) h2
    · rw [EReal.coe_le_coe_iff]
      exact max_le hrawnn (by linarith)
    · rw [EReal.coe_le_coe_iff]
      exact max_le_max le_rfl (by linarith)
  · intro s t hd hs ht
    rw [computeProximity_some, hd, hs, ht]
    simp only [Option.getD_some]
    rw [if_neg (by norm_num)]
    norm_num
  · intro s t hsum
    rw [computeProximity_some]
    set raw := haversineDistanceMeters ⟨s.latitude, s.longitude⟩ ⟨t.latitude, t.longitude⟩
      with hraw
    have hrawnn : 0 ≤ raw := haversineDistanceMeters_nonneg _ _
    have h1 : s.accuracy.getD 0 ≤ max 0 (s.accuracy.getD 0) := le_max_right 0 _
    have h2 : t.accuracy.getD 0 ≤ max 0 (t.accuracy.getD 0) := le_max_right 0 _
    split_ifs with h
    · rw [EReal.coe_eq_coe_iff]
      linarith
    · rw [EReal.coe_eq_coe_iff]
      exact max_eq_left (by linarith)
  · intro s t hs ht
    rw [computeProximity_some]
    have hs0 : s.accuracy.getD 0 = 0 := by
      rcases hs with h | h <;> simp [h]
    have ht0 : t.accuracy.getD 0 = 0 := by
      rcases ht with h | h <;> simp [h]
    rw [if_pos (by rw [hs0, ht0]; norm_num)]

theorem computeProximity_spec_witness :
    ((0 : ℝ) ≤ 1 ∧ haversineDistanceMeters ⟨0, 0⟩ ⟨0, 0.00036⟩ = 40) ∧
    computeProximity ⟨0, 0, some 10⟩ (some ⟨0, 0.00036, some 5, none⟩) = ((25 : ℝ) : EReal) ∧
    computeProximity ⟨0, 0, some (1 : ℝ)⟩ (some ⟨0, 0.00036, some 5, none⟩) ≤
      computeProximity ⟨0, 0, some (0 : ℝ)⟩ (some ⟨0, 0.00036, some 5, none⟩) := by
  have h40 : haversineDistanceMeters ⟨0, 0⟩ ⟨0, 0.00036⟩ = 40 := by
    rw [haversineDistanceMeters_equator (by norm_num) (by norm_num)]
    have hr : round ((6371000 : ℝ) * (0.00036 * Real.pi / 180)) = 40 := by
      have hl := Real.pi_gt_d6
      have hu := Real.pi_lt_d6
      rw [round_eq, Int.floor_eq_iff]
      constructor
      · push_cast
        nlinarith
      · push_cast
        nlinarith
    rw [hr]
    norm_num
  refine ⟨⟨by norm_num, h40⟩, ?_, ?_⟩
  · exact computeProximity_spec.2.2.2.1 ⟨0, 0, some 10⟩ ⟨0, 0.00036, some 5, none⟩ h40 rfl rfl
  · exact computeProximity_spec.2.1 0 0 ⟨0, 0.00036, some 5, none⟩ 0 1 (by norm_num)

/- ----------------------------------------------------------------- -/
/- JSON values and the shared Gemini task client: lib/geminiTasks.ts  -/
/- ----------------------------------------------------------------- -/

/-- JSON value model for JavaScript values produced by JSON.parse. -/
inductive Json where
  | null
  | bool (b : Bool)
  | num (q : ℚ)
  | str (s : String)
  | arr (elements : List Json)
  | obj (fields : List (String × Json))

/-- JavaScript property access `value.key` for a string key: a lookup on
objects, `undefined` (none) on every other value. -/
def Json.getField : Json → String → Option Json
  | .obj fields, key => fields.lookup key
  | _, _ => none

/-- TaskRecommendation from lib/geminiTasks.ts. -/
structure TaskRecommendation where
  id : String
  title : String
  description : String
  focusArea : String
  gradeLevel : String
  duration : String
deriving DecidableEq

/-- Model of the JavaScript string method trim: strips leading and trailing
whitespace characters. -/
def jsTrim (s : String) : String :=
  ⟨((s.data.dropWhile Char.isWhitespace).reverse.dropWhile Char.isWhitespace).reverse⟩

/-- The `coerce` closure inside normalizeTask: a string value with non-empty
trim is kept (trimmed); anything else falls back. -/
def coerceString (value : Option Json) (fallback : String) : String :=
  match value with
  | some (.str s) => if 0 < (jsTrim s).length then jsTrim s else fallback
  | _ => fallback

/-- The `allowedFocus` set inside normalizeTask. -/
def allowedFocusAreas : List String :=
  ["concept-reinforcement", "skills-practice", "career-exposure"]

/-- normalizeTask from lib/geminiTasks.ts. A JavaScript array is `typeof
=== "object"` and truthy, so it passes the object guard like a plain object;
null, booleans, numbers and strings are rejected. -/
def normalizeTask (task : Json) (index : ℕ) : Option TaskRecommendation :=
  match task with
  | .obj _ | .arr _ =>
    let focusArea := coerceString (task.getField "focusArea") "concept-reinforcement"
    let normalizedFocus :=
      if focusArea ∈ allowedFocusAreas then focusArea else "concept-reinforcement"
    some
      { id := coerceString (task.getField "id") ("task-" ++ toString (index + 1)),
        title := coerceString (task.getField "title") "Quick practice task",
        description := coerceString (task.getField "description") "Short targeted activity.",
        focusArea := normalizedFocus,
        gradeLevel := coerceString (task.getField "gradeLevel") "Grade 10",
        duration := coerceString (task.getField "duration") "15 min" }
  | _ => none

/-- Response shape of the generative-language API (`GeminiResponse` /
`GeminiCandidate` in lib/geminiTasks.ts). -/
structure GeminiPart where
  text : Option String

/-- The `content` member of a candidate. -/
structure GeminiContent where
  parts : Option (List GeminiPart)

/-- One candidate of a Gemini response. -/
structure GeminiCandidate where
  content : Option GeminiContent

/-- The whole Gemini response body. -/
structure GeminiResponse where
  candidates : Option (List GeminiCandidate)

/-- Outcome of the `fetch` call in requestGeminiTasks: a thrown network or
body-decoding failure, a non-ok HTTP response, or an ok response with a
decoded JSON body. -/
inductive FetchOutcome where
  | failure (message : String)
  | httpError (status : ℕ) (statusText : String) (bodyText : String)
  | success (data : GeminiResponse)

/-- The `textOutput` extraction in requestGeminiTasks:
`data.candidates?.[0]?.content?.parts?.map(p => p.text ?? "").join("").trim()`,
with `none` standing for the undefined short-circuit of the optional chain. -/
def geminiTextOutput (data : GeminiResponse) : Option String :=
  match data.candidates with
  | none => none
  | some candidates =>
    match candidates.head? with
    | none => none
    | some candidate =>
      match candidate.content with
      | none => none
      | some content =>
        match content.parts with
        | none => none
        | some parts =>
          some (jsTrim ((parts.map (fun part => part.text.getD "")).foldl
            (fun acc t => acc ++ t) ""))

/-- requestGeminiTasks from lib/geminiTasks.ts, with the external `fetch`
outcome and the runtime JSON.parse function passed in explicitly. A thrown
failure or non-ok response raises; an empty/undefined text output, a text
that fails to parse, or a parse result that is not an array all yield an
empty task list; otherwise the array is truncated to `maxTasks` (floored at
zero), normalized, and nulls are filtered out. -/
def requestGeminiTasks (fetchResult : FetchOutcome) (parseJsonText : String → Option Json)
    (maxTasks : ℤ) : Except String (List TaskRecommendation) :=
  match fetchResult with
  | .failure message => .error message
  | .httpError status statusText bodyText =>
    .error ("Gemini request failed: " ++ toString status ++ " " ++ statusText ++
      " — " ++ bodyText)
  | .success data =>
    match geminiTextOutput data with
    | none => .ok []
    | some textOutput =>
      if textOutput = "" then .ok []
      else
        match parseJsonText textOutput with
        | some (.arr parsed) =>
          .ok (((parsed.take (max 0 maxTasks).toNat).mapIdx
            (fun index task => normalizeTask task index)).filterMap id)
        | some _ => .ok []
        | none => .ok []

/- ----------------------------------------------------------------- -/
/- Task HTTP routes: app/api/tasks and app/api/tasks/student          -/
/- ----------------------------------------------------------------- -/

/-- Shape of the JSON responses produced by the two task routes. -/
structure RouteResponse where
  status : ℕ
  error : Option String
  tasks : Option (List TaskRecommendation)
deriving DecidableEq

/-- GET handler of the teacher tasks route (`/api/tasks`): 500 when the
GEMINI_API_KEY environment variable is unset (or empty, which is falsy in
JavaScript), 502 with an empty task list when the shared client throws, and
200 with the tasks otherwise. The client is invoked with maxTasks = 3. -/
def tasksRouteGET (apiKey : Option String) (fetchResult : FetchOutcome)
    (parseJsonText : String → Option Json) : RouteResponse :=
  match apiKey with
  | none =>
    { status := 500,
      error := some "Gemini API key is not configured. Set GEMINI_API_KEY in your environment.",
      tasks := none }
  | some key =>
    if key = "" then
      { status := 500,
        error := some "Gemini API key is not configured. Set GEMINI_API_KEY in your environment.",
        tasks := none }
    else
      match requestGeminiTasks fetchResult parseJsonText 3 with
      | .error _ =>
        { status := 502, error := some "Unable to generate tasks right now.", tasks := some [] }
      | .ok tasks => { status := 200, error := none, tasks := some tasks }

/-- GET handler of the student tasks route (`/api/tasks/student`); identical
status/shape contract to the teacher route, differing only in the prompt it
sends to the external model. -/
def studentTasksRouteGET (apiKey : Option String) (fetchResult : FetchOutcome)
    (parseJsonText : String → Option Json) : RouteResponse :=
  match apiKey with
  | none =>
    { status := 500,
      error := some "Gemini API key is not configured. Set GEMINI_API_KEY in your environment.",
      tasks := none }
  | some key =>
    if key = "" then
      { status := 500,
        error := some "Gemini API key is not configured. Set GEMINI_API_KEY in your environment.",
        tasks := none }
    else
      match requestGeminiTasks fetchResult parseJsonText 3 with
      | .error _ =>
        { status := 502, error := some "Unable to generate tasks right now.", tasks := some [] }
      | .ok tasks => { status := 200, error := none, tasks := some tasks }

/- ----------------------------------------------------------------- -/
/- Gemini client lemmas (C7, C8)                                      -/
/- ----------------------------------------------------------------- -/

theorem requestGeminiTasks_length_le (fetchResult : FetchOutcome)
    (parseJsonText : String → Option Json) (maxTasks : ℤ) (ts : List TaskRecommendation)
    (h : requestGeminiTasks fetchResult parseJsonText maxTasks = .ok ts) :
    ts.length ≤ (max 0 maxTasks).toNat := by
  unfold requestGeminiTasks at h
  split at h
  · simp at h
  · simp at h
  · split at h
    · cases h
      exact Nat.zero_le _
    · split at h
      · cases h
        exact Nat.zero_le _
      · split at h
        · cases h
          refine le_trans (List.length_filterMap_le _ _) ?_
          rw [List.length_mapIdx, List.length_take]
          exact min_le_left _ _
        · cases h
          exact Nat.zero_le _
        · cases h
          exact Nat.zero_le _

/-- C7: for both GET /api/tasks and GET /api/tasks/student — an unset (or
empty, hence falsy) GEMINI_API_KEY yields a 500 response with an error body;
a throwing Gemini client yields a 502 response with an error and an empty
task list; and a successful client call yields a 200 response whose task
list is the client result, which never holds more than 3 tasks. -/
theorem tasksRoutes_spec :
    (∀ (f : FetchOutcome) (p : String → Option Json),
      (tasksRouteGET none f p).status = 500 ∧ (tasksRouteGET none f p).error.isSome ∧
      (studentTasksRouteGET none f p).status = 500 ∧
      (studentTasksRouteGET none f p).error.isSome) ∧
    (∀ (key : String) (f : FetchOutcome) (p : String → Option Json) (e : String),
      key ≠ "" → requestGeminiTasks f p 3 = .error e →
      (tasksRouteGET (some key) f p).status = 502 ∧
      (tasksRouteGET (some key) f p).error.isSome ∧
      (tasksRouteGET (some key) f p).tasks = some [] ∧
      (studentTasksRouteGET (some key) f p).status = 502 ∧
      (studentTasksRouteGET (some key) f p).error.isSome ∧
      (studentTasksRouteGET (some key) f p).tasks = some []) ∧
    (∀ (key : String) (f : FetchOutcome) (p : String → Option Json)
      (ts : List TaskRecommendation),
      key ≠ "" → requestGeminiTasks f p 3 = .ok ts →
      (tasksRouteGET (some key) f p).status = 200 ∧
      (tasksRouteGET (some key) f p).tasks = some ts ∧
      (studentTasksRouteGET (some key) f p).status = 200 ∧
      (studentTasksRouteGET (some key) f p).tasks = some ts ∧
      ts.length ≤ 3) := by
  refine ⟨?_, ?_, ?_⟩
  · intro f p
    exact ⟨rfl, rfl, rfl, rfl⟩
  · intro key f p e hkey herr
    unfold tasksRouteGET studentTasksRouteGET
    dsimp only
    rw [if_neg hkey, herr]
    exact ⟨rfl, rfl, rfl, rfl, rfl, rfl⟩
  · intro key f p ts hkey hok
    have hlen : ts.length ≤ 3 := by
      have := requestGeminiTasks_length_le f p 3 ts hok
      simpa using this
    unfold tasksRouteGET studentTasksRouteGET
    dsimp only
    rw [if_neg hkey, hok]
    exact ⟨rfl, rfl, rfl, rfl, hlen⟩

theorem tasksRoutes_spec_witness :
    (("key" : String) ≠ "" ∧
      requestGeminiTasks (.failure "boom") (fun _ => none) 3 =
        .error "boom" ∧
      requestGeminiTasks (.success ⟨some []⟩) (fun _ => none) 3 = .ok []) ∧
    ((tasksRouteGET none (.failure "boom") (fun _ => none)).status = 500 ∧
      (studentTasksRouteGET none (.failure "boom") (fun _ => none)).status = 500) ∧
    ((tasksRouteGET (some "key") (.failure "boom") (fun _ => none)).status = 502 ∧
      (tasksRouteGET (some "key") (.failure "boom") (fun _ => none)).tasks = some []) ∧
    ((tasksRouteGET (some "key") (.success ⟨some []⟩) (fun _ => none)).status = 200 ∧
      (tasksRouteGET (some "key") (.success ⟨some []⟩) (fun _ => none)).tasks = some [] ∧
      ([] : List TaskRecommendation).length ≤ 3) := by
  have h500 := tasksRoutes_spec.1 (.failure "boom") (fun _ => none)
  have h502 := tasksRoutes_spec.2.1 "key" (.failure "boom") (fun _ => none) "boom"
    (by decide) rfl
  have h200 := tasksRoutes_spec.2.2 "key" (.success ⟨some []⟩) (fun _ => none) []
    (by decide) rfl
  exact ⟨⟨by decide, rfl, rfl⟩, ⟨h500.1, h500.2.2.1⟩, ⟨h502.1, h502.2.2.1⟩,
    ⟨h200.1, h200.2.1, h200.2.2.2.2⟩⟩

/-- C8 counterexample: the raw focusArea value " skills-practice" (leading
space) is not one of the three allowed focus-area strings, yet normalizeTask
trims it before the allow-list check and keeps "skills-practice" — it is not
coerced to "concept-reinforcement". -/
theorem normalizeTask_focusArea_counterexample :
    " skills-practice" ∉ allowedFocusAreas ∧
    (normalizeTask (Json.obj [("focusArea", Json.str " skills-practice")]) 0).map
      TaskRecommendation.focusArea = some "skills-practice" := by
  exact ⟨by decide, by decide⟩

/-- C8 (amended): a raw task whose focusArea field does not coerce (string
check plus trim) to one of the three allowed focus areas is normalized to
"concept-reinforcement" (as stated, the claim fails for raw values that trim
into an allowed value, such as " skills-practice"); a model text output that
does not parse as a JSON array yields an empty task list rather than an
error; and the returned list never exceeds the caller's requested maximum. -/
theorem geminiTaskClient_spec :
    (∀ (task : Json) (index : ℕ) (t : TaskRecommendation),
      normalizeTask task index = some t →
      coerceString (task.getField "focusArea") "concept-reinforcement" ∉ allowedFocusAreas →
      t.focusArea = "concept-reinforcement") ∧
    (∀ (data : GeminiResponse) (p : String → Option Json) (maxTasks : ℤ),
      (∀ (s : String) (xs : List Json), geminiTextOutput data = some s →
        p s ≠ some (.arr xs)) →
      requestGeminiTasks (.success data) p maxTasks = .ok []) ∧
    (∀ (f : FetchOutcome) (p : String → Option Json) (maxTasks : ℤ)
      (ts : List TaskRecommendation),
      requestGeminiTasks f p maxTasks = .ok ts → (ts.length : ℤ) ≤ max 0 maxTasks) := by
  refine ⟨?_, ?_, ?_⟩
  · intro task index t hsome hnot
    cases task with
    | null => simp [normalizeTask] at hsome
    | bool b => simp [normalizeTask] at hsome
    | num q => simp [normalizeTask] at hsome
    | str s => simp [normalizeTask] at hsome
    | arr elements =>
      simp only [normalizeTask] at hsome
      injection hsome with h
      rw [← h]
      dsimp only
      rw [if_neg hnot]
    | obj fields =>
      simp only [normalizeTask] at hsome
      injection hsome with h
      rw [← h]
      dsimp only
      rw [if_neg hnot]
  · intro data p maxTasks hno
    unfold requestGeminiTasks
    dsimp only
    cases hg : geminiTextOutput data with
    | none => rfl
    | some s =>
      dsimp only
      by_cases hs : s = ""
      · rw [if_pos hs]
      · rw [if_neg hs]
        cases hp : p s with
        | none => rfl
        | some j =>
          cases j with
          | arr xs => exact absurd hp (hno s xs hg)
          | null => rfl
          | bool b => rfl
          | num q => rfl
          | str t => rfl
          | obj fields => rfl
  · intro f p maxTasks ts hok
    have h := requestGeminiTasks_length_le f p maxTasks ts hok
    calc (ts.length : ℤ) ≤ ((max 0 maxTasks).toNat : ℤ) := by exact_mod_cast h
      _ = max 0 maxTasks := Int.toNat_of_nonneg (le_max_left 0 maxTasks)

theorem geminiTaskClient_spec_witness :
    (normalizeTask (Json.obj [("focusArea", Json.str "practice")]) 0 =
        some ⟨"task-1", "Quick practice task", "Short targeted activity.",
          "concept-reinforcement", "Grade 10", "15 min"⟩ ∧
      coerceString ((Json.obj [("focusArea", Json.str "practice")]).getField "focusArea")
        "concept-reinforcement" ∉ allowedFocusAreas ∧
      (⟨"task-1", "Quick practice task", "Short targeted activity.",
        "concept-reinforcement", "Grade 10", "15 min"⟩ : TaskRecommendation).focusArea =
        "concept-reinforcement") ∧
    requestGeminiTasks (.success ⟨none⟩) (fun _ => none) 5 = .ok [] ∧
    (([] : List TaskRecommendation).length : ℤ) ≤ max 0 5 := by
  have h1 : normalizeTask (Json.obj [("focusArea", Json.str "practice")]) 0 =
      some ⟨"task-1", "Quick practice task", "Short targeted activity.",
        "concept-reinforcement", "Grade 10", "15 min"⟩ := by decide
  have hnot : coerceString ((Json.obj [("focusArea", Json.str "practice")]).getField
      "focusArea") "concept-reinforcement" ∉ allowedFocusAreas := by decide
  have hvac : ∀ (s : String) (xs : List Json),
      geminiTextOutput (⟨none⟩ : GeminiResponse) = some s →
      (fun (_ : String) => (none : Option Json)) s ≠ some (Json.arr xs) := by
    intro s xs h
    simp [geminiTextOutput] at h
  refine ⟨⟨h1, hnot, geminiTaskClient_spec.1 _ 0 _ h1 hnot⟩, ?_, ?_⟩
  · exact geminiTaskClient_spec.2.1 ⟨none⟩ (fun _ => none) 5 hvac
  · exact geminiTaskClient_spec.2.2 (.success ⟨none⟩) (fun _ => none) 5 []
      (geminiTaskClient_spec.2.1 ⟨none⟩ (fun _ => none) 5 hvac)

/- ----------------------------------------------------------------- -/
/- QR issuance (SessionCreator.tsx) and parsing (attendance.ts)       -/
/- ----------------------------------------------------------------- -/

/-- Coordinates captured by the teacher browser's geolocation callback:
latitude, longitude and accuracy are always numbers there, capturedAt an
ISO string. JSON numbers are modelled as rationals. -/
structure CapturedCoordinates where
  latitude : ℚ
  longitude : ℚ
  accuracy : ℚ
  capturedAt : String

/-- The `qrData` JSON object serialized by the session-creator submit
handler. JSON.stringify and the student-side JSON.parse are the vendored
library round trip, so the model works on the JSON value tree the string
encodes. -/
def sessionQrData (sessionId sessionToken className subject scheduledFor teacherId : String)
    (durationMinutes : ℚ) (coordinates : CapturedCoordinates) : Json :=
  Json.obj
    [("sessionId", Json.str sessionId),
     ("sessionToken", Json.str sessionToken),
     ("className", Json.str className),
     ("subject", Json.str subject),
     ("scheduledFor", Json.str scheduledFor),
     ("teacherId", Json.str teacherId),
     ("durationMinutes", Json.num durationMinutes),
     ("locationCoordinates", Json.obj
       [("latitude", Json.num coordinates.latitude),
        ("longitude", Json.num coordinates.longitude),
        ("accuracy", Json.num coordinates.accuracy),
        ("capturedAt", Json.str coordinates.capturedAt)])]

/-- Coordinates member of a parsed ScannedSessionPayload (accuracy optional,
capturedAt not part of the schema and stripped by zod). -/
structure PayloadCoordinates where
  latitude : ℚ
  longitude : ℚ
  accuracy : Option ℚ
deriving DecidableEq

/-- ScannedSessionPayload from services/attendance.ts (inferred from
qrPayloadSchema). -/
structure ScannedSessionPayload where
  sessionId : String
  sessionToken : String
  teacherId : String
  className : String
  subject : String
  scheduledFor : String
  durationMinutes : ℚ
  locationCoordinates : PayloadCoordinates
deriving DecidableEq

/-- zod validator `z.string().min(n)` applied to an optional JSON member. -/
def parseStringMin (j : Option Json) (n : ℕ) : Option String :=
  match j with
  | some (Json.str s) => if n ≤ s.length then some s else none
  | _ => none

/-- zod validator `z.number().int().positive()`. -/
def parsePositiveInt (j : Option Json) : Option ℚ :=
  match j with
  | some (Json.num q) => if q.den = 1 ∧ 0 < q then some q else none
  | _ => none

/-- zod validator `z.number()`. -/
def parseNumber (j : Option Json) : Option ℚ :=
  match j with
  | some (Json.num q) => some q
  | _ => none

/-- The nested locationCoordinates object schema: latitude and longitude
numbers, optionally an accuracy number; unknown members such as the
teacher-side capturedAt are stripped by zod's default object behaviour. -/
def parseLocationCoordinates (j : Option Json) : Option PayloadCoordinates :=
  match j with
  | some jv =>
    match jv with
    | Json.obj _ =>
      match parseNumber (jv.getField "latitude"), parseNumber (jv.getField "longitude") with
      | some latitude, some longitude =>
        match jv.getField "accuracy" with
        | none => some ⟨latitude, longitude, none⟩
        | some (Json.num q) => some ⟨latitude, longitude, some q⟩
        | some _ => none
      | _, _ => none
    | _ => none
  | none => none

/-- The qrPayloadSchema object validation from services/attendance.ts. -/
def qrPayloadSchemaParse (j : Json) : Option ScannedSessionPayload :=
  match j with
  | Json.obj _ =>
    match parseStringMin (j.getField "sessionId") 1,
        parseStringMin (j.getField "sessionToken") 8,
        parseStringMin (j.getField "teacherId") 1,
        parseStringMin (j.getField "className") 1,
        parseStringMin (j.getField "subject") 1,
        parseStringMin (j.getField "scheduledFor") 1,
        parsePositiveInt (j.getField "durationMinutes"),
        parseLocationCoordinates (j.getField "locationCoordinates") with
    | some sessionId, some sessionToken, some teacherId, some className, some subject,
        some scheduledFor, some durationMinutes, some locationCoordinates =>
      some ⟨sessionId, sessionToken, teacherId, className, subject, scheduledFor,
        durationMinutes, locationCoordinates⟩
    | _, _, _, _, _, _, _, _ => none
  | _ => none

/-- parseQrPayload from services/attendance.ts; the scanned string is
represented by the outcome of the runtime JSON.parse on it, with `none`
standing for a JSON.parse throw. -/
def parseQrPayload (rawJson : Option Json) : Except String ScannedSessionPayload :=
  match rawJson with
  | none => .error "Invalid QR code. Ensure you scanned a Smart Attender session."
  | some parsed =>
    match qrPayloadSchemaParse parsed with
    | none =>
      .error "QR code contents are malformed. Please request a new code from your teacher."
    | some result => .ok result

/-- C6: a session created by the teacher-side creator (non-empty ids,
class name, subject and schedule, a token of at least 8 characters as the
hyphen-stripped UUID always is, a positive integer duration, captured
coordinates) serializes to a QR JSON value that the student-side parser
accepts, and the parsed payload carries the identical sessionId,
sessionToken and location coordinates. -/
theorem qrRoundTrip_spec (sessionId sessionToken className subject scheduledFor teacherId :
      String) (durationMinutes : ℚ) (coordinates : CapturedCoordinates)
    (hsid : 1 ≤ sessionId.length) (htok : 8 ≤ sessionToken.length)
    (htea : 1 ≤ teacherId.length) (hcls : 1 ≤ className.length)
    (hsub : 1 ≤ subject.length) (hsch : 1 ≤ scheduledFor.length)
    (hint : durationMinutes.den = 1) (hpos : 0 < durationMinutes) :
    parseQrPayload (some (sessionQrData sessionId sessionToken className subject
      scheduledFor teacherId durationMinutes coordinates)) =
      .ok ⟨sessionId, sessionToken, teacherId, className, subject, scheduledFor,
        durationMinutes, ⟨coordinates.latitude, coordinates.longitude,
          some coordinates.accuracy⟩⟩ := by
  have hloc : parseLocationCoordinates ((sessionQrData sessionId sessionToken className
      subject scheduledFor teacherId durationMinutes coordinates).getField
        "locationCoordinates") =
      some ⟨coordinates.latitude, coordinates.longitude, some coordinates.accuracy⟩ := rfl
  unfold parseQrPayload qrPayloadSchemaParse
  dsimp only
  rw [hloc]
  simp only [sessionQrData, Json.getField, List.lookup, parseStringMin, parsePositiveInt]
  simp [hsid, htok, htea, hcls, hsub, hsch, hint, hpos]

theorem qrRoundTrip_spec_witness :
    (1 ≤ ("abc" : String).length ∧ 8 ≤ ("0123456789abcdef" : String).length ∧
      1 ≤ ("t1" : String).length ∧ 1 ≤ ("Grade 10 A" : String).length ∧
      1 ≤ ("Mathematics" : String).length ∧
      1 ≤ ("2026-10-11T09:00:00.000Z" : String).length ∧
      (45 : ℚ).den = 1 ∧ (0 : ℚ) < 45) ∧
    parseQrPayload (some (sessionQrData "abc" "0123456789abcdef" "Grade 10 A"
      "Mathematics" "2026-10-11T09:00:00.000Z" "t1" 45
      ⟨10, 20, 5, "2026-10-11T08:00:00.000Z"⟩)) =
      .ok ⟨"abc", "0123456789abcdef", "t1", "Grade 10 A", "Mathematics",
        "2026-10-11T09:00:00.000Z", 45, ⟨10, 20, some 5⟩⟩ := by
  refine ⟨⟨by decide, by decide, by decide, by decide, by decide, by decide, rfl,
    by norm_num⟩, ?_⟩
  exact qrRoundTrip_spec "abc" "0123456789abcdef" "Grade 10 A" "Mathematics"
    "2026-10-11T09:00:00.000Z" "t1" 45 ⟨10, 20, 5, "2026-10-11T08:00:00.000Z"⟩
    (by decide) (by decide) (by decide) (by decide) (by decide) (by decide) rfl
    (by norm_num)

/- ----------------------------------------------------------------- -/
/- Device trust service: services/device-trust.ts                     -/
/- ----------------------------------------------------------------- -/

/-- DeviceApprovalState from services/student-profile.ts. -/
inductive DeviceApprovalState where
  | pending
  | approved
  | blocked
deriving DecidableEq

/-- Block reason shown when the device reports itself as virtual. -/
def EMULATOR_BLOCK_REASON : String := "Virtual devices are not allowed for attendance."

/-- Block reason shown when the device key is owned by another student. -/
def DEVICE_CONFLICT_REASON : String :=
  "This device is registered to another student. Use your approved device or request a transfer."

/-- Block reason shown when the directory transaction failed for a
non-permission cause. -/
def DEVICE_VERIFICATION_FAILURE_REASON : String :=
  "Unable to verify device ownership. Check your connection or contact an administrator."

/-- Device metadata assembled by collectDeviceMetadata from the expo-device
runtime APIs, passed in explicitly here. -/
structure DeviceMetadata where
  platform : String
  brand : Option String
  modelName : Option String
  osVersion : Option String
  isPhysicalDevice : Bool
  attestationPassed : Bool
  appVersion : Option String
  appBuild : Option String
deriving DecidableEq

/-- A deviceDirectory/(deviceKey) document. -/
structure DirectoryEntry where
  studentId : Option String
  platform : String
  brand : Option String
  modelName : Option String
  osVersion : Option String
  appVersion : Option String
  isPhysicalDevice : Bool
  attestationPassed : Bool
deriving DecidableEq

/-- A students/(uid)/devices/(deviceKey) document: the fields the service
writes, with the approval fields it reads back through toDeviceState. -/
structure StoredDeviceDoc where
  deviceKey : String
  platform : String
  brand : Option String
  modelName : Option String
  osVersion : Option String
  isPhysicalDevice : Bool
  attestationPassed : Bool
  approvalState : Option DeviceApprovalState
  approvalReason : Option String
  appVersion : Option String
  appBuild : Option String
  registeredAt : Option String
deriving DecidableEq

/-- The students/(uid) profile fields the device-trust service touches. -/
structure ProfileDoc where
  activeDeviceKey : Option String
  deviceApprovalState : Option DeviceApprovalState
  deviceApprovalReason : Option String
deriving DecidableEq

/-- The store documents involved in device registration, as keyed
association lists. -/
structure TrustStoreState where
  directory : List (String × DirectoryEntry)
  profiles : List (String × ProfileDoc)
  devices : List ((String × String) × StoredDeviceDoc)

/-- Keyed-document read. -/
def alistGet {κ α : Type} [DecidableEq κ] (l : List (κ × α)) (k : κ) : Option α :=
  match l with
  | [] => none
  | (k', v) :: rest => if k = k' then some v else alistGet rest k

/-- Keyed-document write (replace or append). -/
def alistPut {κ α : Type} [DecidableEq κ] (l : List (κ × α)) (k : κ) (v : α) :
    List (κ × α) :=
  match l with
  | [] => [(k, v)]
  | (k', v') :: rest => if k = k' then (k, v) :: rest else (k', v') :: alistPut rest k v

/-- Failure modes of the directory-claim transaction: a permission-denied
rejection (treated as a conflict signal by the catch clause) or any other
failure (treated as a verification failure). -/
inductive TxFault where
  | permissionDenied
  | otherFailure
deriving DecidableEq

/-- JavaScript falsiness of a string-or-null value (`!value`). -/
abbrev optStrFalsy (v : Option String) : Prop :=
  v = none ∨ v = some ""

/-- DeviceRegistration as returned to callers (device-trust.ts). -/
structure DeviceRegistration where
  deviceKey : String
  approvalState : DeviceApprovalState
  approvalReason : Option String
  isPhysicalDevice : Bool
  platform : String
  brand : Option String
  modelName : Option String
  osVersion : Option String
  appVersion : Option String
  attestationPassed : Bool
  lastSyncedAt : String
  registeredAt : Option String
deriving DecidableEq

/-- ensureDeviceRegistration from services/device-trust.ts, modelling the
real-user, backend-configured path (the mock/demo branch instead loads a
purely on-device record). The locally persisted device key, the collected
metadata and the wall clock are passed in; `txFault` injects the two failure
modes of the directory transaction (`none` means it committed). Server
timestamps are represented by the call's `nowIso` reading. Returns the
registration handed to the caller and the updated store. -/
def ensureDeviceRegistration (st : TrustStoreState) (uid : String) (deviceKey : String)
    (metadata : DeviceMetadata) (nowIso : String) (txFault : Option TxFault) :
    DeviceRegistration × TrustStoreState :=
  let claimedEntry : DirectoryEntry :=
    { studentId := some uid, platform := metadata.platform, brand := metadata.brand,
      modelName := metadata.modelName, osVersion := metadata.osVersion,
      appVersion := metadata.appVersion, isPhysicalDevice := metadata.isPhysicalDevice,
      attestationPassed := metadata.attestationPassed }
  let claimOutcome : Bool × Bool × List (String × DirectoryEntry) :=
    match txFault with
    | some .permissionDenied => (true, false, st.directory)
    | some .otherFailure => (false, true, st.directory)
    | none =>
      match alistGet st.directory deviceKey with
      | none => (false, false, alistPut st.directory deviceKey claimedEntry)
      | some entry =>
        match entry.studentId with
        | some owner =>
          if owner ≠ "" ∧ owner ≠ uid then (true, false, st.directory)
          else (false, false, alistPut st.directory deviceKey claimedEntry)
        | none => (false, false, alistPut st.directory deviceKey claimedEntry)
  let deviceClaimedByOther := claimOutcome.1
  let ownershipVerificationFailed := claimOutcome.2.1
  let newDirectory := claimOutcome.2.2
  let profileData := alistGet st.profiles uid
  let currentActiveKey := profileData.bind (·.activeDeviceKey)
  let deviceSnap := alistGet st.devices (uid, deviceKey)
  let storedState := deviceSnap.bind (·.approvalState)
  let storedReason := deviceSnap.bind (·.approvalReason)
  let stateAndReason : DeviceApprovalState × Option String :=
    if deviceClaimedByOther then (.blocked, some DEVICE_CONFLICT_REASON)
    else if ownershipVerificationFailed then (.blocked, some DEVICE_VERIFICATION_FAILURE_REASON)
    else if ¬ metadata.isPhysicalDevice then (.blocked, some EMULATOR_BLOCK_REASON)
    else
      match storedState with
      | some stored => (stored, storedReason)
      | none =>
        if optStrFalsy currentActiveKey ∨ currentActiveKey = some deviceKey then
          (.approved, none)
        else (.pending, some "Another device is already approved for this account.")
  let approvalState := stateAndReason.1
  let approvalReason := stateAndReason.2
  let newDeviceDoc : StoredDeviceDoc :=
    { deviceKey := deviceKey, platform := metadata.platform, brand := metadata.brand,
      modelName := metadata.modelName, osVersion := metadata.osVersion,
      isPhysicalDevice := metadata.isPhysicalDevice,
      attestationPassed := metadata.attestationPassed,
      approvalState := some approvalState, approvalReason := approvalReason,
      appVersion := metadata.appVersion, appBuild := metadata.appBuild,
      registeredAt :=
        match deviceSnap with
        | some prior => prior.registeredAt
        | none => some nowIso }
  let storedProfileState := profileData.bind (·.deviceApprovalState)
  let storedProfileReason := profileData.bind (·.deviceApprovalReason)
  let shouldUpdateProfile :=
    approvalState = .approved ∨ currentActiveKey = some deviceKey ∨
      optStrFalsy currentActiveKey ∨ storedProfileState ≠ some approvalState ∨
      storedProfileReason ≠ approvalReason
  let newProfiles :=
    if shouldUpdateProfile then
      let base := profileData.getD ⟨none, none, none⟩
      alistPut st.profiles uid
        { base with
          deviceApprovalState := some approvalState,
          deviceApprovalReason := approvalReason,
          activeDeviceKey := if approvalState = .approved then some deviceKey else none }
    else st.profiles
  let registration : DeviceRegistration :=
    { deviceKey := deviceKey, approvalState := approvalState,
      approvalReason := approvalReason,
      isPhysicalDevice := metadata.isPhysicalDevice, platform := metadata.platform,
      brand := metadata.brand, modelName := metadata.modelName,
      osVersion := metadata.osVersion, appVersion := metadata.appVersion,
      attestationPassed := metadata.attestationPassed, lastSyncedAt := nowIso,
      registeredAt :=
        match deviceSnap.bind (·.registeredAt) with
        | some iso => some iso
        | none => some nowIso }
  (registration,
    { directory := newDirectory, profiles := newProfiles,
      devices := alistPut st.devices (uid, deviceKey) newDeviceDoc })

/- ----------------------------------------------------------------- -/
/- Device trust lemmas (C2)                                           -/
/- ----------------------------------------------------------------- -/

theorem alistGet_put_self {κ α : Type} [DecidableEq κ] (l : List (κ × α)) (k : κ) (v : α) :
    alistGet (alistPut l k v) k = some v := by
  induction l with
  | nil => simp [alistGet, alistPut]
  | cons hd tl ih =>
    obtain ⟨k', v'⟩ := hd
    by_cases h : k = k'
    · simp [alistPut, h, alistGet]
    · simp [alistPut, h, alistGet, ih]

/-- Directory ownership recorded for a device key. -/
def directoryOwner (st : TrustStoreState) (deviceKey : String) : Option String :=
  (alistGet st.directory deviceKey).bind (·.studentId)

/-- A registration attempt in a sequence: caller, reported metadata and
wall-clock reading. -/
structure EnsureCall where
  uid : String
  metadata : DeviceMetadata
  nowIso : String

/-- Folds a sequence of fault-free ensureDeviceRegistration calls for one
device key over the store. -/
def runEnsureCalls (deviceKey : String) (calls : List EnsureCall) (st : TrustStoreState) :
    TrustStoreState :=
  calls.foldl
    (fun s c => (ensureDeviceRegistration s c.uid deviceKey c.metadata c.nowIso none).2) st

theorem ensureDeviceRegistration_conflict {st : TrustStoreState} {s1 : String}
    (s2 deviceKey : String) (m : DeviceMetadata) (nowIso : String)
    (hs1 : s1 ≠ "") (hne : s1 ≠ s2)
    (hown : directoryOwner st deviceKey = some s1) :
    (ensureDeviceRegistration st s2 deviceKey m nowIso none).1.approvalState = .blocked ∧
    (ensureDeviceRegistration st s2 deviceKey m nowIso none).1.approvalReason =
      some DEVICE_CONFLICT_REASON ∧
    directoryOwner (ensureDeviceRegistration st s2 deviceKey m nowIso none).2 deviceKey =
      some s1 := by
  unfold directoryOwner at hown
  cases hget : alistGet st.directory deviceKey with
  | none =>
    rw [hget] at hown
    exact absurd hown (by simp)
  | some entry =>
    rw [hget] at hown
    simp only [Option.some_bind] at hown
    have hs2ne : s1 ≠ s2 := hne
    unfold ensureDeviceRegistration directoryOwner
    simp only [hget, hown, hs1, hne, ne_eq, not_false_eq_true, and_self, if_true]
    simp [hget, hown]

theorem ensureDeviceRegistration_ownerPreserved {st : TrustStoreState} {s1 : String}
    (uid deviceKey : String) (m : DeviceMetadata) (nowIso : String) (txFault : Option TxFault)
    (hs1 : s1 ≠ "") (hown : directoryOwner st deviceKey = some s1) :
    directoryOwner (ensureDeviceRegistration st uid deviceKey m nowIso txFault).2 deviceKey =
      some s1 := by
  unfold directoryOwner at hown
  cases hget : alistGet st.directory deviceKey with
  | none =>
    rw [hget] at hown
    exact absurd hown (by simp)
  | some entry =>
    rw [hget] at hown
    simp only [Option.some_bind] at hown
    match txFault with
    | some .permissionDenied =>
      unfold ensureDeviceRegistration directoryOwner
      simp [hget, hown]
    | some .otherFailure =>
      unfold ensureDeviceRegistration directoryOwner
      simp [hget, hown]
    | none =>
      by_cases huid : s1 = uid
      · unfold ensureDeviceRegistration directoryOwner
        subst huid
        simp [hget, hown, alistGet_put_self]
      · unfold ensureDeviceRegistration directoryOwner
        simp [hget, hown, hs1, huid]

theorem runEnsureCalls_ownerPreserved {s1 : String} (deviceKey : String)
    (calls : List EnsureCall) (st : TrustStoreState)
    (hs1 : s1 ≠ "") (hown : directoryOwner st deviceKey = some s1) :
    directoryOwner (runEnsureCalls deviceKey calls st) deviceKey = some s1 := by
  induction calls generalizing st with
  | nil => exact hown
  | cons c rest ih =>
    exact ih _ (ensureDeviceRegistration_ownerPreserved c.uid deviceKey c.metadata
      c.nowIso none hs1 hown)

theorem ensureDeviceRegistration_firstClaim {st0 : TrustStoreState} (s1 deviceKey : String)
    (m : DeviceMetadata) (nowIso : String)
    (hphys : m.isPhysicalDevice = true)
    (hdir : alistGet st0.directory deviceKey = none)
    (hdev : alistGet st0.devices (s1, deviceKey) = none)
    (hprof : (alistGet st0.profiles s1).bind (·.activeDeviceKey) = none) :
    (ensureDeviceRegistration st0 s1 deviceKey m nowIso none).1.approvalState = .approved ∧
    (ensureDeviceRegistration st0 s1 deviceKey m nowIso none).1.approvalReason = none ∧
    directoryOwner (ensureDeviceRegistration st0 s1 deviceKey m nowIso none).2 deviceKey =
      some s1 := by
  unfold ensureDeviceRegistration directoryOwner
  simp [hdir, hdev, hprof, hphys, optStrFalsy, alistGet_put_self]

/-- C2: with a fresh physical device key and no active device on the first
student's account, the first ensureDeviceRegistration call returns
approvalState approved; afterwards, however many further registration calls
are run for that key (by either student, fault-free), every attempt by the
second, distinct student returns approvalState blocked with the
device-conflict reason — the second student never obtains approval for that
key. -/
theorem ensureDeviceRegistration_firstClaim_spec (s1 s2 deviceKey : String)
    (m1 : DeviceMetadata) (nowIso : String) (st0 : TrustStoreState)
    (hs1 : s1 ≠ "") (hne : s1 ≠ s2) (hphys : m1.isPhysicalDevice = true)
    (hdir : alistGet st0.directory deviceKey = none)
    (hdev : alistGet st0.devices (s1, deviceKey) = none)
    (hprof : (alistGet st0.profiles s1).bind (·.activeDeviceKey) = none) :
    (ensureDeviceRegistration st0 s1 deviceKey m1 nowIso none).1.approvalState = .approved ∧
    (ensureDeviceRegistration st0 s1 deviceKey m1 nowIso none).1.approvalReason = none ∧
    (∀ (calls : List EnsureCall) (m2 : DeviceMetadata) (now2 : String),
      (ensureDeviceRegistration
          (runEnsureCalls deviceKey calls
            (ensureDeviceRegistration st0 s1 deviceKey m1 nowIso none).2)
          s2 deviceKey m2 now2 none).1.approvalState = .blocked ∧
      (ensureDeviceRegistration
          (runEnsureCalls deviceKey calls
            (ensureDeviceRegistration st0 s1 deviceKey m1 nowIso none).2)
          s2 deviceKey m2 now2 none).1.approvalReason = some DEVICE_CONFLICT_REASON) := by
  obtain ⟨happ, hreason, hown1⟩ :=
    ensureDeviceRegistration_firstClaim s1 deviceKey m1 nowIso hphys hdir hdev hprof
  refine ⟨happ, hreason, ?_⟩
  intro calls m2 now2
  have hown' := runEnsureCalls_ownerPreserved deviceKey calls _ hs1 hown1
  obtain ⟨hb, hc, _⟩ :=
    ensureDeviceRegistration_conflict s2 deviceKey m2 now2 hs1 hne hown'
  exact ⟨hb, hc⟩

theorem ensureDeviceRegistration_firstClaim_spec_witness :
    (("alice" : String) ≠ "" ∧ ("alice" : String) ≠ "bob" ∧
      (⟨"iOS", none, none, none, true, true, none, none⟩ :
        DeviceMetadata).isPhysicalDevice = true ∧
      alistGet ([] : List (String × DirectoryEntry)) "device-1" = none ∧
      alistGet ([] : List ((String × String) × StoredDeviceDoc)) ("alice", "device-1") = none ∧
      (alistGet [("alice", (⟨none, none, none⟩ : ProfileDoc)),
        ("bob", (⟨none, none, none⟩ : ProfileDoc))] "alice").bind
          (fun p => p.activeDeviceKey) = none) ∧
    (ensureDeviceRegistration ⟨[], [("alice", ⟨none, none, none⟩), ("bob", ⟨none, none, none⟩)], []⟩
      "alice" "device-1" ⟨"iOS", none, none, none, true, true, none, none⟩
      "2026-10-11T08:00:00Z" none).1.approvalState = .approved ∧
    (ensureDeviceRegistration
      (runEnsureCalls "device-1"
        [⟨"bob", ⟨"Android", none, none, none, true, true, none, none⟩, "2026-10-11T08:05:00Z"⟩]
        (ensureDeviceRegistration
          ⟨[], [("alice", ⟨none, none, none⟩), ("bob", ⟨none, none, none⟩)], []⟩
          "alice" "device-1" ⟨"iOS", none, none, none, true, true, none, none⟩
          "2026-10-11T08:00:00Z" none).2)
      "bob" "device-1" ⟨"Android", none, none, none, true, true, none, none⟩
      "2026-10-11T08:10:00Z" none).1.approvalState = .blocked ∧
    (ensureDeviceRegistration
      (runEnsureCalls "device-1"
        [⟨"bob", ⟨"Android", none, none, none, true, true, none, none⟩, "2026-10-11T08:05:00Z"⟩]
        (ensureDeviceRegistration
          ⟨[], [("alice", ⟨none, none, none⟩), ("bob", ⟨none, none, none⟩)], []⟩
          "alice" "device-1" ⟨"iOS", none, none, none, true, true, none, none⟩
          "2026-10-11T08:00:00Z" none).2)
      "bob" "device-1" ⟨"Android", none, none, none, true, true, none, none⟩
      "2026-10-11T08:10:00Z" none).1.approvalReason = some DEVICE_CONFLICT_REASON := by
  have h := ensureDeviceRegistration_firstClaim_spec "alice" "bob" "device-1"
    ⟨"iOS", none, none, none, true, true, none, none⟩ "2026-10-11T08:00:00Z"
    ⟨[], [("alice", ⟨none, none, none⟩), ("bob", ⟨none, none, none⟩)], []⟩
    (by decide) (by decide) rfl rfl rfl rfl
  have h2 := h.2.2
    [⟨"bob", ⟨"Android", none, none, none, true, true, none, none⟩, "2026-10-11T08:05:00Z"⟩]
    ⟨"Android", none, none, none, true, true, none, none⟩ "2026-10-11T08:10:00Z"
  exact ⟨⟨by decide, by decide, rfl, rfl, rfl, rfl⟩, h.1, h2.1, h2.2⟩

/- ----------------------------------------------------------------- -/
/- Attendance recording: recordAttendance in services/attendance.ts   -/
/- ----------------------------------------------------------------- -/

/-- AttendanceStatus from lib/types/session. -/
inductive AttendanceStatus where
  | present
  | flagged
  | late
deriving DecidableEq

/-- The student argument of recordAttendance (a Firebase user or the mock
student; `isMock` models the isMockStudent marker check). -/
structure StudentUser where
  uid : String
  displayName : Option String
  email : Option String
  isMock : Bool

/-- The StudentProfile fields that the attendance service reads
(services/student-profile.ts carries further onboarding fields the
check-in path never touches). -/
structure StudentProfile where
  activeDeviceKey : Option String
  deviceApprovalReason : Option String

/-- AttendanceSession from lib/types/session. -/
structure AttendanceSession where
  id : String
  teacherId : String
  className : String
  subject : String
  scheduledFor : String
  durationMinutes : ℝ
  location : String
  locationCoordinates : Option SessionLocationCoordinates
  sessionToken : Option String

/-- ResolvedSession as consumed by recordAttendance: the resolved session
data, whether a canonical document reference is attached, and whether the
resolution was mock. -/
structure ResolvedSession where
  session : AttendanceSession
  hasSessionRef : Bool
  isMock : Bool

/-- AttendanceCheckInput from services/attendance.ts. -/
structure AttendanceCheckInput where
  student : StudentUser
  session : ResolvedSession
  studentLocation : StudentLocation
  device : Option DeviceRegistration
  profile : Option StudentProfile

/-- AttendanceCheckResult from services/attendance.ts. -/
structure AttendanceCheckResult where
  status : AttendanceStatus
  proximityMeters : EReal
  message : String
  notes : List String

/-- One attendee entry merged into the session document (scannedAt is a
server-assigned timestamp and carries no client-determined value). -/
structure AttendeeEntry where
  id : String
  name : String
  status : AttendanceStatus
  proximityMeters : EReal
  deviceKey : String
  devicePlatform : String
  deviceModel : Option String

/-- Remote store interactions performed by recordAttendance, in order:
obtaining the Firestore handle, the transactional session read and
attendee-array update, the public-mirror attendance upsert, and the
personal attendance-log append. -/
inductive RemoteOp where
  | getDbHandle
  | txGetSession
  | txUpdateSession (attendees : List AttendeeEntry)
  | setAttendanceDoc (sessionToken : String) (studentUid : String)
  | addAttendanceLog (studentUid : String)

/-- Environment of one recordAttendance run: configuration flag, whether the
session document still exists when the transaction reads it, its current
attendee array, and whether the transactional write is rejected with
permission-denied (which the service tolerates). -/
structure AttendanceEnv where
  isFirebaseConfigured : Bool
  sessionDocExists : Bool
  sessionAttendees : List AttendeeEntry
  txPermissionDenied : Bool

/-- Number.isFinite on the EReal model of JavaScript numbers. -/
def numberIsFinite (x : EReal) : Prop :=
  x ≠ ⊤ ∧ x ≠ ⊥

/-- The proximity threshold (EXPO_PUBLIC_PROXIMITY_THRESHOLD_METERS has no
value in the checked configuration, so the default 50 applies). -/
def DEFAULT_THRESHOLD_METERS : ℝ := 50

/-- The attendees.findIndex-based upsert inside the transaction: replace
the first entry with the student's id, else append. -/
def upsertById (attendees : List AttendeeEntry) (entry : AttendeeEntry) : List AttendeeEntry :=
  match attendees with
  | [] => [entry]
  | a :: rest => if a.id = entry.id then entry :: rest else a :: upsertById rest entry

open Classical in
/-- recordAttendance from services/attendance.ts (the device-trust variant).
Returns the committed remote operations in order together with the thrown
error or the returned result. Device-trust rejections throw before the
`getFirestoreDb()` call, so their operation trace is empty. -/
noncomputable def recordAttendance (env : AttendanceEnv) (input : AttendanceCheckInput) :
    List RemoteOp × Except String AttendanceCheckResult :=
  match input.device with
  | none =>
    ([], .error "This device is not registered. Refresh the device status and try again.")
  | some device =>
    if device.approvalState ≠ .approved then
      let reason : Option String :=
        match device.approvalReason with
        | some r => some r
        | none => input.profile.bind (·.deviceApprovalReason)
      match reason with
      | some r =>
        if r ≠ "" then ([], .error r)
        else ([], .error
          "This device has not been approved for attendance. Contact your administrator.")
      | none =>
        ([], .error
          "This device has not been approved for attendance. Contact your administrator.")
    else
      let keyMismatch : Prop :=
        match input.profile.bind (·.activeDeviceKey) with
        | some k => k ≠ "" ∧ k ≠ device.deviceKey
        | none => False
      if keyMismatch then
        ([], .error
          "Another device is currently approved for this account. Switch back to the approved device.")
      else
        let proximityMeters :=
          computeProximity input.studentLocation input.session.session.locationCoordinates
        let accuracyMargin :=
          max 0 (input.studentLocation.accuracy.getD 0) +
            max 0 ((input.session.session.locationCoordinates.bind (·.accuracy)).getD 0)
        let notes1 : List String :=
          if 0 < accuracyMargin then
            ["Distance adjusted by ±" ++ toString (round accuracyMargin) ++
              "m for GPS accuracy."]
          else []
        let exceeded : Prop :=
          numberIsFinite proximityMeters ∧
            ((DEFAULT_THRESHOLD_METERS : ℝ) : EReal) < proximityMeters
        let notes2 := notes1 ++ (if exceeded then ["Distance exceeded 50m threshold"] else [])
        let notes3 := notes2 ++ ["Device key " ++ device.deviceKey]
        let status : AttendanceStatus :=
          if device.isPhysicalDevice then (if exceeded then .flagged else .present)
          else .flagged
        let notes4 :=
          notes3 ++ (if device.isPhysicalDevice then [] else ["Device reported as virtual."])
        if ¬ env.isFirebaseConfigured ∨ input.session.isMock ∨ input.student.isMock then
          ([], .ok
            { status := status, proximityMeters := proximityMeters,
              message :=
                if status = .present then "Attendance recorded (demo)."
                else "Attendance flagged (demo).",
              notes := notes4 ++ ["Attendance recorded locally (mock mode)."] })
        else if ¬ input.session.hasSessionRef then
          ([.getDbHandle], .error "Session reference unavailable.")
        else
          let attendeeEntry : AttendeeEntry :=
            { id := input.student.uid,
              name := ((input.student.displayName).orElse
                (fun _ => input.student.email)).getD "Student",
              status := status, proximityMeters := proximityMeters,
              deviceKey := device.deviceKey, devicePlatform := device.platform,
              deviceModel := device.modelName }
          let txOutcome : List RemoteOp × List String × Bool :=
            if env.txPermissionDenied then
              ([.getDbHandle, .txGetSession],
                ["Teacher session will sync attendance when permissions are updated."], true)
            else if ¬ env.sessionDocExists then
              ([.getDbHandle, .txGetSession], [], false)
            else
              ([.getDbHandle, .txGetSession,
                .txUpdateSession (upsertById env.sessionAttendees attendeeEntry)], [], true)
          if ¬ txOutcome.2.2 then
            (txOutcome.1, .error "Session was removed before attendance could be recorded.")
          else
            let notes5 := notes4 ++ txOutcome.2.1
            match input.session.session.sessionToken with
            | none =>
              (txOutcome.1, .error
                "Session token missing from record. Ask your teacher to regenerate the QR code.")
            | some token =>
              if token = "" then
                (txOutcome.1, .error
                  "Session token missing from record. Ask your teacher to regenerate the QR code.")
              else
                (txOutcome.1 ++
                  [.setAttendanceDoc token input.student.uid,
                    .addAttendanceLog input.student.uid],
                  .ok
                    { status := status, proximityMeters := proximityMeters,
                      message :=
                        if status = .present then "You were marked present."
                        else "Attendance flagged for review.",
                      notes := notes5 })

/-- C10: every device-trust rejection in recordAttendance — missing device
registration, an approval state other than approved, or a profile whose
activeDeviceKey names a different device — throws before the store handle
is obtained: the remote-operation trace is empty, so no remote document is
read or written and no attendance-log entry is created by that attempt. -/
theorem recordAttendance_deviceTrust_noRemote (env : AttendanceEnv)
    (input : AttendanceCheckInput)
    (hreject : input.device = none ∨
      (∃ d, input.device = some d ∧ d.approvalState ≠ .approved) ∨
      (∃ d k, input.device = some d ∧ d.approvalState = .approved ∧
        input.profile.bind (·.activeDeviceKey) = some k ∧ k ≠ "" ∧ k ≠ d.deviceKey)) :
    (recordAttendance env input).1 = [] ∧
    ∃ message, (recordAttendance env input).2 = .error message := by
  rcases hreject with hnone | ⟨d, hd, hstate⟩ | ⟨d, k, hd, hstate, hkey, hk1, hk2⟩
  · simp only [recordAttendance, hnone]
    exact ⟨by trivial, ⟨_, by trivial⟩⟩
  · simp only [recordAttendance, hd]
    rw [if_pos hstate]
    constructor
    · split
      · split
        · rfl
        · rfl
      · rfl
    · split
      · split
        · exact ⟨_, rfl⟩
        · exact ⟨_, rfl⟩
      · exact ⟨_, rfl⟩
  · simp only [recordAttendance, hd]
    rw [if_neg (by simp [hstate]), hkey]
    rw [if_pos ⟨hk1, hk2⟩]
    exact ⟨by trivial, ⟨_, by trivial⟩⟩

theorem recordAttendance_deviceTrust_noRemote_witness :
    (⟨⟨"s1", none, none, true⟩,
        ⟨⟨"sess", "t1", "Class", "Subject", "2026-10-11T09:00:00Z", 45, "loc", none, none⟩,
          false, true⟩,
        ⟨0, 0, none⟩, none, none⟩ : AttendanceCheckInput).device = none ∧
    (recordAttendance ⟨false, false, [], false⟩
      ⟨⟨"s1", none, none, true⟩,
        ⟨⟨"sess", "t1", "Class", "Subject", "2026-10-11T09:00:00Z", 45, "loc", none, none⟩,
          false, true⟩,
        ⟨0, 0, none⟩, none, none⟩).1 = [] ∧
    ∃ message, (recordAttendance ⟨false, false, [], false⟩
      ⟨⟨"s1", none, none, true⟩,
        ⟨⟨"sess", "t1", "Class", "Subject", "2026-10-11T09:00:00Z", 45, "loc", none, none⟩,
          false, true⟩,
        ⟨0, 0, none⟩, none, none⟩).2 = .error message := by
  have h := recordAttendance_deviceTrust_noRemote ⟨false, false, [], false⟩
    ⟨⟨"s1", none, none, true⟩,
      ⟨⟨"sess", "t1", "Class", "Subject", "2026-10-11T09:00:00Z", 45, "loc", none, none⟩,
        false, true⟩,
      ⟨0, 0, none⟩, none, none⟩ (Or.inl rfl)
  exact ⟨rfl, h.1, h.2⟩

/-- C1 counterexample: with an approved physical device and a resolved
session carrying no target coordinates, computeProximity returns positive
infinity, yet recordAttendance returns status present — the Number.isFinite
guard exempts an infinite proximity from the distance flag, so this
check-in is not flagged. -/
theorem recordAttendance_infiniteProximity_counterexample :
    computeProximity ⟨0, 0, none⟩ none = (⊤ : EReal) ∧
    ((recordAttendance ⟨false, false, [], false⟩
      ⟨⟨"s1", none, none, true⟩,
        ⟨⟨"sess", "t1", "Class", "Subject", "2026-10-11T09:00:00Z", 45, "loc", none, none⟩,
          false, true⟩,
        ⟨0, 0, none⟩,
        some ⟨"dev-1", .approved, none, true, "iOS", none, none, none, none, true,
          "2026-10-11T08:00:00Z", none⟩,
        none⟩).2).map AttendanceCheckResult.status = Except.ok AttendanceStatus.present := by
  constructor
  · rfl
  · simp [recordAttendance, computeProximity, numberIsFinite, Except.map]

/-- C1 (amended): computeProximity with no target location returns positive
infinity, but recordAttendance's distance check only flags finite
proximities: with an approved physical device and a session without target
coordinates the check-in is recorded with status present — never flagged —
on the locally-recorded (mock-path) branch. -/
theorem recordAttendance_infiniteProximity_spec :
    (∀ s : StudentLocation, computeProximity s none = (⊤ : EReal)) ∧
    (∀ (env : AttendanceEnv) (input : AttendanceCheckInput) (d : DeviceRegistration),
      input.device = some d → d.approvalState = .approved → d.isPhysicalDevice = true →
      input.profile.bind (fun p => p.activeDeviceKey) = none →
      input.session.session.locationCoordinates = none →
      (env.isFirebaseConfigured = false ∨ input.session.isMock = true ∨
        input.student.isMock = true) →
      ∃ r, (recordAttendance env input).2 = .ok r ∧ r.status = .present ∧
        r.proximityMeters = (⊤ : EReal)) := by
  refine ⟨fun s => rfl, ?_⟩
  intro env input d hd hstate hphys hkey hloc hmock
  have hmock' : (¬ env.isFirebaseConfigured ∨ input.session.isMock ∨
      input.student.isMock) := by
    rcases hmock with h | h | h
    · exact Or.inl (by simp [h])
    · exact Or.inr (Or.inl (by simp [h]))
    · exact Or.inr (Or.inr (by simp [h]))
  have hprox : computeProximity input.studentLocation
      input.session.session.locationCoordinates = (⊤ : EReal) := by
    rw [hloc]
    rfl
  have hexc : ¬(numberIsFinite (computeProximity input.studentLocation
      input.session.session.locationCoordinates) ∧
      ((DEFAULT_THRESHOLD_METERS : ℝ) : EReal) < computeProximity input.studentLocation
        input.session.session.locationCoordinates) := by
    rw [hprox]
    rintro ⟨⟨h, -⟩, -⟩
    exact h rfl
  simp only [recordAttendance, hd]
  rw [if_neg (fun h => h hstate), hkey]
  rw [if_neg not_false, if_pos hmock']
  refine ⟨_, rfl, ?_, ?_⟩
  · dsimp only
    rw [hphys]
    rw [if_pos rfl, if_neg hexc]
  · dsimp only
    exact hprox

theorem recordAttendance_infiniteProximity_spec_witness :
    ((⟨⟨"s1", none, none, true⟩,
        ⟨⟨"sess", "t1", "Class", "Subject", "2026-10-11T09:00:00Z", 45, "loc", none, none⟩,
          false, true⟩,
        ⟨0, 0, none⟩,
        some ⟨"dev-1", .approved, none, true, "iOS", none, none, none, none, true,
          "2026-10-11T08:00:00Z", none⟩,
        none⟩ : AttendanceCheckInput).device =
        some ⟨"dev-1", .approved, none, true, "iOS", none, none, none, none, true,
          "2026-10-11T08:00:00Z", none⟩ ∧
      (⟨"dev-1", .approved, none, true, "iOS", none, none, none, none, true,
        "2026-10-11T08:00:00Z", none⟩ : DeviceRegistration).approvalState = .approved ∧
      (⟨"dev-1", .approved, none, true, "iOS", none, none, none, none, true,
        "2026-10-11T08:00:00Z", none⟩ : DeviceRegistration).isPhysicalDevice = true ∧
      (⟨false, false, [], false⟩ : AttendanceEnv).isFirebaseConfigured = false) ∧
    ∃ r, (recordAttendance ⟨false, false, [], false⟩
      ⟨⟨"s1", none, none, true⟩,
        ⟨⟨"sess", "t1", "Class", "Subject", "2026-10-11T09:00:00Z", 45, "loc", none, none⟩,
          false, true⟩,
        ⟨0, 0, none⟩,
        some ⟨"dev-1", .approved, none, true, "iOS", none, none, none, none, true,
          "2026-10-11T08:00:00Z", none⟩,
        none⟩).2 = .ok r ∧ r.status = .present ∧ r.proximityMeters = (⊤ : EReal) := by
  refine ⟨⟨rfl, rfl, rfl, rfl⟩, ?_⟩
  exact recordAttendance_infiniteProximity_spec.2 ⟨false, false, [], false⟩
    ⟨⟨"s1", none, none, true⟩,
      ⟨⟨"sess", "t1", "Class", "Subject", "2026-10-11T09:00:00Z", 45, "loc", none, none⟩,
        false, true⟩,
      ⟨0, 0, none⟩,
      some ⟨"dev-1", .approved, none, true, "iOS", none, none, none, none, true,
        "2026-10-11T08:00:00Z", none⟩,
      none⟩
    ⟨"dev-1", .approved, none, true, "iOS", none, none, none, none, true,
      "2026-10-11T08:00:00Z", none⟩
    rfl rfl rfl rfl rfl (Or.inl rfl)

/- ----------------------------------------------------------------- -/
/- On-device face dataset: the face-model service (analyze/seed)      -/
/- ----------------------------------------------------------------- -/

/-- Per-(student, class) retention cap of the face dataset. -/
def MAX_SAMPLES_PER_STUDENT : ℕ := 10

/-- Face verification threshold (EXPO_PUBLIC_FACE_THRESHOLD has no value in
the checked configuration, so the default 0.12 applies). -/
noncomputable def FACE_VERIFICATION_THRESHOLD : ℝ := 0.12

/-- Sentinel class id of the onboarding baseline sample collection. -/
def PROFILE_CLASS_ID : String := "__profile__"

/-- StudentProfileInput from the face-model service. -/
structure StudentProfileInput where
  displayName : Option String
  email : Option String
  photoURL : Option String
  studentNumber : Option String

/-- StoredStudentProfile from the face-model service. -/
structure StoredStudentProfile where
  studentId : String
  displayName : Option String
  email : Option String
  photoURL : Option String
  studentNumber : Option String
  registeredAt : String
  updatedAt : String
  lastClassId : Option String

/-- StoredFaceSample from the face-model service. -/
structure StoredFaceSample where
  studentId : String
  classId : String
  embedding : List ℝ
  capturedAt : String
  thumbnailBase64 : Option String

/-- FaceModelDataset: the JSON blob persisted to on-device storage. -/
structure FaceModelDataset where
  samples : List StoredFaceSample
  students : List (String × StoredStudentProfile)

/-- FaceAnalysisResult returned by analyzeAndStoreFaceSample. -/
structure FaceAnalysisResult where
  verified : Bool
  distance : Option EReal
  samplesForStudent : ℕ
  enrolled : Bool
  profileSaved : Bool
  previewBase64 : Option String

/-- truncateSamples: keep only the newest MAX_SAMPLES_PER_STUDENT samples
(`samples.slice(samples.length - MAX)`). -/
def truncateSamples (samples : List StoredFaceSample) : List StoredFaceSample :=
  if samples.length ≤ MAX_SAMPLES_PER_STUDENT then samples
  else samples.drop (samples.length - MAX_SAMPLES_PER_STUDENT)

/-- createSample (capturedAt is the wall-clock reading, passed in). -/
def createSample (studentId classId : String) (embedding : List ℝ) (capturedAt : String)
    (previewBase64 : Option String) : StoredFaceSample :=
  { studentId := studentId, classId := classId, embedding := embedding,
    capturedAt := capturedAt, thumbnailBase64 := previewBase64 }

/-- computeCentroid: per-coordinate mean of the vectors. The callers only
pass non-empty, dimension-uniform vector sets (the source throws on a
dimension mismatch, which cannot occur after the purge step). -/
noncomputable def computeCentroid (vectors : List (List ℝ)) : List ℝ :=
  let dimension := (vectors.headD []).length
  let sums := vectors.foldl (fun acc v => List.zipWith (fun a b => a + b) acc v)
    (List.replicate dimension (0 : ℝ))
  sums.map (fun value => value / (vectors.length : ℝ))

/-- euclideanDistance: `Number.POSITIVE_INFINITY` (EReal top) on mismatched
dimensions, else the root of the summed squared differences. -/
noncomputable def euclideanDistance (a b : List ℝ) : EReal :=
  if a.length ≠ b.length then ⊤
  else ((Real.sqrt ((List.zipWith (fun x y => (x - y) * (x - y)) a b).sum) : ℝ) : EReal)

/-- upsertStudentProfile: merge details over the existing entry, stamp
updatedAt and lastClassId, and report `true`. -/
def upsertStudentProfile (students : List (String × StoredStudentProfile))
    (studentId classId : String) (details : Option StudentProfileInput) (nowIso : String) :
    Bool × List (String × StoredStudentProfile) :=
  let existing := alistGet students studentId
  let registeredAt := (existing.map (fun e => e.registeredAt)).getD nowIso
  let nextProfile : StoredStudentProfile :=
    { studentId := studentId,
      displayName := ((details.bind (fun d => d.displayName)).orElse
        (fun _ => existing.bind (fun e => e.displayName))),
      email := ((details.bind (fun d => d.email)).orElse
        (fun _ => existing.bind (fun e => e.email))),
      photoURL := ((details.bind (fun d => d.photoURL)).orElse
        (fun _ => existing.bind (fun e => e.photoURL))),
      studentNumber := ((details.bind (fun d => d.studentNumber)).orElse
        (fun _ => existing.bind (fun e => e.studentNumber))),
      registeredAt := registeredAt, updatedAt := nowIso, lastClassId := some classId }
  (true, alistPut students studentId nextProfile)

/-- The dimension purge at the top of analyzeAndStoreFaceSample: drop the
student's samples whose embedding dimensionality differs from the new
embedding's. -/
def purgeMismatched (samples : List StoredFaceSample) (studentId : String)
    (expectedDimension : ℕ) : List StoredFaceSample :=
  samples.filter
    (fun s => ¬ (s.studentId = studentId ∧ s.embedding.length ≠ expectedDimension))

/-- The reference-set gathering of analyzeAndStoreFaceSample: the existing
(student, class) samples, or — when the class has none and is not the
baseline sentinel — the newest 10 baseline samples relabeled to the class. -/
def gatherSeededSamples (samples : List StoredFaceSample) (studentId classId : String) :
    List StoredFaceSample :=
  let existingSamples :=
    samples.filter (fun s => s.studentId = studentId ∧ s.classId = classId)
  let fallbackProfileSamples :=
    if classId ≠ PROFILE_CLASS_ID then
      (let profileSamples :=
        samples.filter (fun s => s.studentId = studentId ∧ s.classId = PROFILE_CLASS_ID)
      (profileSamples.drop (profileSamples.length - MAX_SAMPLES_PER_STUDENT)).map
        (fun s => { s with classId := classId }))
    else []
  if existingSamples.isEmpty then fallbackProfileSamples else existingSamples

open Classical in
/-- analyzeAndStoreFaceSample from the face-model service, with the image
embedding already computed (generateImageEmbedding performs the capture and
model inference externally) and the clock readings passed in. -/
noncomputable def analyzeAndStoreFaceSample (dataset : FaceModelDataset)
    (studentId classId : String) (embedding : List ℝ) (previewBase64 : Option String)
    (capturedAt nowIso : String) (studentProfile : Option StudentProfileInput) :
    Except String (FaceAnalysisResult × FaceModelDataset) :=
  let expectedDimension := embedding.length
  if expectedDimension = 0 then
    .error "Received invalid embedding data. Please try capturing again."
  else
    let purged := purgeMismatched dataset.samples studentId expectedDimension
    let seededSamples := gatherSeededSamples purged studentId classId
    let enrolled := seededSamples.isEmpty
    let distance : Option EReal :=
      if seededSamples.isEmpty then none
      else some (euclideanDistance embedding
        (computeCentroid (seededSamples.map (fun s => s.embedding))))
    let verified : Bool :=
      if seededSamples.isEmpty then true
      else decide (euclideanDistance embedding
        (computeCentroid (seededSamples.map (fun s => s.embedding))) ≤
          ((FACE_VERIFICATION_THRESHOLD : ℝ) : EReal))
    let nextSamples := truncateSamples
      (seededSamples ++ [createSample studentId classId embedding capturedAt previewBase64])
    let remaining :=
      purged.filter (fun s => ¬ (s.studentId = studentId ∧ s.classId = classId))
    let upsert := upsertStudentProfile dataset.students studentId classId studentProfile nowIso
    .ok
      ({ verified := verified, distance := distance,
         samplesForStudent := nextSamples.length, enrolled := enrolled,
         profileSaved := upsert.1, previewBase64 := previewBase64 },
       { samples := remaining ++ nextSamples, students := upsert.2 })

/-- seedFaceEmbeddings from the face-model service: bulk-replace the
(student, class) samples with the provided pre-computed embeddings,
truncated to the cap; returns the stored count and the new dataset. -/
def seedFaceEmbeddings (dataset : FaceModelDataset) (studentId classId : String)
    (embeddings : List (List ℝ)) (capturedAt nowIso : String)
    (studentProfile : Option StudentProfileInput) : ℕ × FaceModelDataset :=
  if embeddings.isEmpty then (0, dataset)
  else
    let expectedDimension := (embeddings.headD []).length
    let validEmbeddings := embeddings.filter
      (fun e => e.length = expectedDimension ∧ 0 < e.length)
    if validEmbeddings.isEmpty then (0, dataset)
    else
      let cleared := dataset.samples.filter
        (fun s => ¬ (s.studentId = studentId ∧ s.classId = classId))
      let nextSamples := truncateSamples
        (validEmbeddings.map (fun e => createSample studentId classId e capturedAt none))
      let upsert :=
        if studentProfile.isSome then
          upsertStudentProfile dataset.students studentId classId studentProfile nowIso
        else (true, dataset.students)
      (nextSamples.length, { samples := cleared ++ nextSamples, students := upsert.2 })

/-- One mutation of the on-device face dataset: an analysis capture or a
bulk seeding. -/
inductive FaceOp where
  | analyze (studentId classId : String) (embedding : List ℝ) (previewBase64 : Option String)
      (capturedAt nowIso : String) (studentProfile : Option StudentProfileInput)
  | seed (studentId classId : String) (embeddings : List (List ℝ)) (capturedAt nowIso : String)
      (studentProfile : Option StudentProfileInput)

/-- Apply one face-dataset mutation; a thrown analysis error leaves the
stored dataset unchanged (the source throws before saving). -/
noncomputable def applyFaceOp (dataset : FaceModelDataset) (op : FaceOp) : FaceModelDataset :=
  match op with
  | .analyze sid cid e prev cap now prof =>
    match analyzeAndStoreFaceSample dataset sid cid e prev cap now prof with
    | .ok result => result.2
    | .error _ => dataset
  | .seed sid cid es cap now prof => (seedFaceEmbeddings dataset sid cid es cap now prof).2

/-- Run a sequence of face-dataset mutations. -/
noncomputable def runFaceOps (ops : List FaceOp) (dataset : FaceModelDataset) :
    FaceModelDataset :=
  ops.foldl applyFaceOp dataset

/-- The samples stored for one (student, class) pair. -/
def samplesFor (dataset : FaceModelDataset) (studentId classId : String) :
    List StoredFaceSample :=
  dataset.samples.filter (fun s => s.studentId = studentId ∧ s.classId = classId)

/-- The dataset a fresh install starts from (loadDataset with no stored
blob). -/
def emptyDataset : FaceModelDataset := ⟨[], []⟩

/-- Sequentially run the analysis path once per embedding for one
(student, class) pair. -/
noncomputable def insertFaceSamples (dataset : FaceModelDataset) (studentId classId : String)
    (es : List (List ℝ)) (capturedAt nowIso : String) : FaceModelDataset :=
  es.foldl
    (fun d e => applyFaceOp d (.analyze studentId classId e none capturedAt nowIso none))
    dataset

/- ----------------------------------------------------------------- -/
/- Face verification lemmas (C4)                                      -/
/- ----------------------------------------------------------------- -/

open Classical in
/-- C4: when the gathered reference sample set (existing class samples, or
the relabeled baseline fallback) is empty, the capture is an enrollment:
verified = true unconditionally and enrolled = true; otherwise verified
holds exactly when the Euclidean distance from the new embedding to the
centroid of the reference embeddings is at most
FACE_VERIFICATION_THRESHOLD (default 0.12) — so a candidate at exactly the
threshold distance is verified and one strictly beyond it is not. -/
theorem analyzeAndStoreFaceSample_verification_spec :
    (∀ (dataset : FaceModelDataset) (sid cid : String) (e : List ℝ) (prev : Option String)
      (cap now : String) (prof : Option StudentProfileInput),
      e.length ≠ 0 →
      gatherSeededSamples (purgeMismatched dataset.samples sid e.length) sid cid = [] →
      ∃ r d', analyzeAndStoreFaceSample dataset sid cid e prev cap now prof = .ok (r, d') ∧
        r.verified = true ∧ r.enrolled = true) ∧
    (∀ (dataset : FaceModelDataset) (sid cid : String) (e : List ℝ) (prev : Option String)
      (cap now : String) (prof : Option StudentProfileInput)
      (sref : List StoredFaceSample),
      e.length ≠ 0 →
      gatherSeededSamples (purgeMismatched dataset.samples sid e.length) sid cid = sref →
      sref ≠ [] →
      ∃ r d', analyzeAndStoreFaceSample dataset sid cid e prev cap now prof = .ok (r, d') ∧
        r.enrolled = false ∧
        r.distance = some (euclideanDistance e
          (computeCentroid (sref.map (fun s => s.embedding)))) ∧
        (r.verified = true ↔
          euclideanDistance e (computeCentroid (sref.map (fun s => s.embedding))) ≤
            ((FACE_VERIFICATION_THRESHOLD : ℝ) : EReal))) := by
  constructor
  · intro dataset sid cid e prev cap now prof hlen hg
    unfold analyzeAndStoreFaceSample
    rw [if_neg hlen]
    refine ⟨_, _, rfl, ?_, ?_⟩
    · dsimp only
      rw [hg]
      rfl
    · dsimp only
      rw [hg]
      rfl
  · intro dataset sid cid e prev cap now prof sref hlen hg hne
    have hempty : sref.isEmpty = false := by
      cases sref with
      | nil => exact absurd rfl hne
      | cons a l => rfl
    unfold analyzeAndStoreFaceSample
    rw [if_neg hlen]
    refine ⟨_, _, rfl, ?_, ?_, ?_⟩
    · dsimp only
      rw [hg, hempty]
    · dsimp only
      rw [hg, hempty]
      rfl
    · dsimp only
      rw [hg, hempty]
      rw [if_neg Bool.false_ne_true]
      exact decide_eq_true_iff

theorem analyzeAndStoreFaceSample_verification_spec_witness :
    (([(1 : ℝ)] : List ℝ).length ≠ 0 ∧
      gatherSeededSamples (purgeMismatched emptyDataset.samples "stu" 1) "stu" "cls" = [] ∧
      ∃ r d', analyzeAndStoreFaceSample emptyDataset "stu" "cls" [(1 : ℝ)] none "t" "t" none =
        .ok (r, d') ∧ r.verified = true ∧ r.enrolled = true) ∧
    (∃ r d', analyzeAndStoreFaceSample ⟨[⟨"stu", "cls", [(0 : ℝ)], "t0", none⟩], []⟩
        "stu" "cls" [(0.12 : ℝ)] none "t" "t" none = .ok (r, d') ∧ r.verified = true) ∧
    (∃ r d', analyzeAndStoreFaceSample ⟨[⟨"stu", "cls", [(0 : ℝ)], "t0", none⟩], []⟩
        "stu" "cls" [(0.13 : ℝ)] none "t" "t" none = .ok (r, d') ∧ r.verified = false) := by
  have hcent : computeCentroid
      (([⟨"stu", "cls", [(0 : ℝ)], "t0", none⟩] : List StoredFaceSample).map
        (fun s => s.embedding)) = [(0 : ℝ)] := by
    simp [computeCentroid]
  have hd12 : euclideanDistance [(0.12 : ℝ)] [(0 : ℝ)] = ((0.12 : ℝ) : EReal) := by
    unfold euclideanDistance
    rw [if_neg (by decide)]
    have hs : (List.zipWith (fun x y => (x - y) * (x - y)) [(0.12 : ℝ)] [(0 : ℝ)]).sum =
        (0.12 : ℝ) * 0.12 := by
      simp
    rw [hs, Real.sqrt_mul_self (by norm_num)]
  have hd13 : euclideanDistance [(0.13 : ℝ)] [(0 : ℝ)] = ((0.13 : ℝ) : EReal) := by
    unfold euclideanDistance
    rw [if_neg (by decide)]
    have hs : (List.zipWith (fun x y => (x - y) * (x - y)) [(0.13 : ℝ)] [(0 : ℝ)]).sum =
        (0.13 : ℝ) * 0.13 := by
      simp
    rw [hs, Real.sqrt_mul_self (by norm_num)]
  refine ⟨⟨by decide, rfl, ?_⟩, ?_, ?_⟩
  · exact analyzeAndStoreFaceSample_verification_spec.1 emptyDataset "stu" "cls" [(1 : ℝ)]
      none "t" "t" none (by decide) rfl
  · obtain ⟨r, d', hok, hen, hdist, hiff⟩ :=
      analyzeAndStoreFaceSample_verification_spec.2
        ⟨[⟨"stu", "cls", [(0 : ℝ)], "t0", none⟩], []⟩ "stu" "cls" [(0.12 : ℝ)] none "t" "t"
        none [⟨"stu", "cls", [(0 : ℝ)], "t0", none⟩] (by decide) rfl (by simp)
    refine ⟨r, d', hok, hiff.mpr ?_⟩
    rw [hcent, hd12]
    exact le_refl _
  · obtain ⟨r, d', hok, hen, hdist, hiff⟩ :=
      analyzeAndStoreFaceSample_verification_spec.2
        ⟨[⟨"stu", "cls", [(0 : ℝ)], "t0", none⟩], []⟩ "stu" "cls" [(0.13 : ℝ)] none "t" "t"
        none [⟨"stu", "cls", [(0 : ℝ)], "t0", none⟩] (by decide) rfl (by simp)
    refine ⟨r, d', hok, Bool.eq_false_iff.mpr fun hv => ?_⟩
    have hle := hiff.mp hv
    rw [hcent, hd13] at hle
    rw [show ((FACE_VERIFICATION_THRESHOLD : ℝ) : EReal) = ((0.12 : ℝ) : EReal) from rfl,
      EReal.coe_le_coe_iff] at hle
    norm_num at hle

/- ----------------------------------------------------------------- -/
/- Face retention lemmas (C5)                                         -/
/- ----------------------------------------------------------------- -/

theorem truncateSamples_eq (l : List StoredFaceSample) :
    truncateSamples l = l.drop (l.length - MAX_SAMPLES_PER_STUDENT) := by
  unfold truncateSamples
  split_ifs with h
  · rw [Nat.sub_eq_zero_of_le h, List.drop_zero]
  · rfl

theorem truncateSamples_length_le (l : List StoredFaceSample) :
    (truncateSamples l).length ≤ MAX_SAMPLES_PER_STUDENT := by
  unfold truncateSamples
  split_ifs with h
  · exact h
  · rw [List.length_drop]
    omega

theorem takeLast_append {α : Type} (n : ℕ) (X ys : List α) :
    (X.drop (X.length - n) ++ ys).drop ((X.drop (X.length - n) ++ ys).length - n) =
      (X ++ ys).drop ((X ++ ys).length - n) := by
  by_cases h : X.length ≤ n
  · rw [Nat.sub_eq_zero_of_le h, List.drop_zero]
  · push_neg at h
    rw [List.drop_append_eq_append_drop, List.drop_append_eq_append_drop, List.drop_drop]
    have h1 : (X.drop (X.length - n)).length = n := by
      rw [List.length_drop]
      omega
    congr 1
    · congr 1
      simp only [List.length_append, List.length_drop]
      omega
    · congr 1
      simp only [List.length_append, List.length_drop]
      omega

theorem purgeMismatched_eq (other cur : List StoredFaceSample) (sid : String) (n : ℕ)
    (hother : ∀ s ∈ other, s.studentId ≠ sid)
    (hcur : ∀ s ∈ cur, s.embedding.length = n) :
    purgeMismatched (other ++ cur) sid n = other ++ cur := by
  unfold purgeMismatched
  rw [List.filter_append]
  congr 1
  · exact List.filter_eq_self.mpr fun s hs => by
      simp only [decide_eq_true_eq]
      exact fun h => hother s hs h.1
  · exact List.filter_eq_self.mpr fun s hs => by
      simp only [decide_eq_true_eq]
      exact fun h => h.2 (hcur s hs)

theorem gatherSeededSamples_eq (other cur : List StoredFaceSample) (sid cid : String)
    (hother : ∀ s ∈ other, s.studentId ≠ sid)
    (hcur : ∀ s ∈ cur, s.studentId = sid ∧ s.classId = cid) :
    gatherSeededSamples (other ++ cur) sid cid = cur := by
  have h1 : other.filter (fun s => decide (s.studentId = sid ∧ s.classId = cid)) = [] :=
    List.filter_eq_nil_iff.mpr fun s hs => by
      simp only [decide_eq_true_eq]
      exact fun h => hother s hs h.1
  have h2 : cur.filter (fun s => decide (s.studentId = sid ∧ s.classId = cid)) = cur :=
    List.filter_eq_self.mpr fun s hs => by
      simp only [decide_eq_true_eq]
      exact hcur s hs
  unfold gatherSeededSamples
  simp only [List.filter_append, h1, h2, List.nil_append]
  cases cur with
  | nil =>
    simp only [List.isEmpty_nil, if_true]
    split_ifs
    · have h3 : other.filter
          (fun s => decide (s.studentId = sid ∧ s.classId = PROFILE_CLASS_ID)) = [] :=
        List.filter_eq_nil_iff.mpr fun s hs => by
          simp only [decide_eq_true_eq]
          exact fun h => hother s hs h.1
      rw [h3]
      rfl
    · rfl
  | cons a l =>
    simp

theorem remaining_eq (other cur : List StoredFaceSample) (sid cid : String)
    (hother : ∀ s ∈ other, s.studentId ≠ sid)
    (hcur : ∀ s ∈ cur, s.studentId = sid ∧ s.classId = cid) :
    (other ++ cur).filter (fun s => decide ¬(s.studentId = sid ∧ s.classId = cid)) =
      other := by
  rw [List.filter_append]
  have h1 : other.filter (fun s => decide ¬(s.studentId = sid ∧ s.classId = cid)) = other :=
    List.filter_eq_self.mpr fun s hs => by
      simp only [decide_eq_true_eq]
      exact fun h => hother s hs h.1
  have h2 : cur.filter (fun s => decide ¬(s.studentId = sid ∧ s.classId = cid)) = [] :=
    List.filter_eq_nil_iff.mpr fun s hs => by
      simp only [decide_eq_true_eq]
      exact fun h => h (hcur s hs)
  rw [h1, h2, List.append_nil]

theorem applyFaceOp_analyze_samples (sid cid cap now : String) (e : List ℝ)
    (hlen : e.length ≠ 0) (other cur : List StoredFaceSample)
    (studs : List (String × StoredStudentProfile))
    (hother : ∀ s ∈ other, s.studentId ≠ sid)
    (hcur : ∀ s ∈ cur, s.studentId = sid ∧ s.classId = cid ∧
      s.embedding.length = e.length) :
    (applyFaceOp ⟨other ++ cur, studs⟩ (.analyze sid cid e none cap now none)).samples =
      other ++ truncateSamples (cur ++ [createSample sid cid e cap none]) := by
  have hpurge : purgeMismatched (other ++ cur) sid e.length = other ++ cur :=
    purgeMismatched_eq other cur sid e.length hother (fun s hs => (hcur s hs).2.2)
  have hgather : gatherSeededSamples (other ++ cur) sid cid = cur :=
    gatherSeededSamples_eq other cur sid cid hother
      (fun s hs => ⟨(hcur s hs).1, (hcur s hs).2.1⟩)
  have hrem : (other ++ cur).filter
      (fun s => decide ¬(s.studentId = sid ∧ s.classId = cid)) = other :=
    remaining_eq other cur sid cid hother (fun s hs => ⟨(hcur s hs).1, (hcur s hs).2.1⟩)
  unfold applyFaceOp analyzeAndStoreFaceSample
  dsimp only
  rw [if_neg hlen]
  dsimp only
  rw [hpurge, hgather, hrem]

theorem insertFaceSamples_go (sid cid cap now : String) (n : ℕ) (hn : 0 < n)
    (es : List (List ℝ)) :
    ∀ (other cur : List StoredFaceSample) (studs : List (String × StoredStudentProfile)),
      (∀ e ∈ es, e.length = n) →
      (∀ s ∈ other, s.studentId ≠ sid) →
      (∀ s ∈ cur, s.studentId = sid ∧ s.classId = cid ∧ s.embedding.length = n) →
      cur.length ≤ MAX_SAMPLES_PER_STUDENT →
      (insertFaceSamples ⟨other ++ cur, studs⟩ sid cid es cap now).samples =
        other ++ (cur ++ es.map (fun e => createSample sid cid e cap none)).drop
          ((cur ++ es.map (fun e => createSample sid cid e cap none)).length -
            MAX_SAMPLES_PER_STUDENT) := by
  induction es with
  | nil =>
    intro other cur studs hes hother hcur hlen
    simp only [insertFaceSamples, List.foldl_nil, List.map_nil, List.append_nil]
    rw [Nat.sub_eq_zero_of_le hlen, List.drop_zero]
  | cons e rest ih =>
    intro other cur studs hes hother hcur hlen
    have he : e.length = n := hes e (List.mem_cons_self e rest)
    have hlen0 : e.length ≠ 0 := by omega
    have hstep := applyFaceOp_analyze_samples sid cid cap now e hlen0 other cur studs hother
      (fun s hs => ⟨(hcur s hs).1, (hcur s hs).2.1, by rw [(hcur s hs).2.2, he]⟩)
    unfold insertFaceSamples
    rw [List.foldl_cons]
    have hd1eq : applyFaceOp ⟨other ++ cur, studs⟩ (.analyze sid cid e none cap now none) =
        ⟨other ++ truncateSamples (cur ++ [createSample sid cid e cap none]),
          (applyFaceOp ⟨other ++ cur, studs⟩
            (.analyze sid cid e none cap now none)).students⟩ := by
      rw [← hstep]
    rw [hd1eq]
    have hcur' : ∀ s ∈ truncateSamples (cur ++ [createSample sid cid e cap none]),
        s.studentId = sid ∧ s.classId = cid ∧ s.embedding.length = n := by
      intro s hs
      have hs' : s ∈ cur ++ [createSample sid cid e cap none] := by
        rw [truncateSamples_eq] at hs
        exact List.mem_of_mem_drop hs
      rcases List.mem_append.mp hs' with h | h
      · exact hcur s h
      · rw [List.mem_singleton.mp h]
        exact ⟨rfl, rfl, he⟩
    have hrest : ∀ e' ∈ rest, e'.length = n := fun e' h => hes e' (List.mem_cons_of_mem _ h)
    have hih := ih other (truncateSamples (cur ++ [createSample sid cid e cap none]))
      (applyFaceOp ⟨other ++ cur, studs⟩ (.analyze sid cid e none cap now none)).students
      hrest hother hcur' (truncateSamples_length_le _)
    unfold insertFaceSamples at hih
    rw [hih]
    congr 1
    rw [truncateSamples_eq, List.map_cons]
    have hglue := takeLast_append MAX_SAMPLES_PER_STUDENT
      (cur ++ [createSample sid cid e cap none])
      (rest.map (fun e => createSample sid cid e cap none))
    rw [hglue]
    simp [List.append_assoc]

theorem gatherSeededSamples_mem (samples : List StoredFaceSample) (sid cid : String) :
    ∀ s ∈ gatherSeededSamples samples sid cid, s.studentId = sid ∧ s.classId = cid := by
  intro s hs
  unfold gatherSeededSamples at hs
  dsimp only at hs
  split at hs
  · split at hs
    · obtain ⟨x, hx, rfl⟩ := List.mem_map.mp hs
      have hx' := List.mem_filter.mp (List.mem_of_mem_drop hx)
      simp only [decide_eq_true_eq] at hx'
      exact ⟨hx'.2.1, rfl⟩
    · exact absurd hs (List.not_mem_nil s)
  · have := List.mem_filter.mp hs
    simp only [decide_eq_true_eq] at this
    exact this.2

/-- The at-most-10-per-pair invariant of the face dataset. -/
def cappedAt10 (d : FaceModelDataset) : Prop :=
  ∀ sid cid, (samplesFor d sid cid).length ≤ MAX_SAMPLES_PER_STUDENT

theorem capped_parts (dsamples base next : List StoredFaceSample) (sid cid : String)
    (hsub : base.Sublist dsamples)
    (hbase : ∀ s ∈ base, ¬(s.studentId = sid ∧ s.classId = cid))
    (hnextpair : ∀ s ∈ next, s.studentId = sid ∧ s.classId = cid)
    (hnextlen : next.length ≤ MAX_SAMPLES_PER_STUDENT)
    (h : ∀ sid' cid', (dsamples.filter
      (fun s => decide (s.studentId = sid' ∧ s.classId = cid'))).length ≤
        MAX_SAMPLES_PER_STUDENT) :
    ∀ sid' cid', ((base ++ next).filter
      (fun s => decide (s.studentId = sid' ∧ s.classId = cid'))).length ≤
        MAX_SAMPLES_PER_STUDENT := by
  intro sid' cid'
  rw [List.filter_append, List.length_append]
  by_cases hpair : sid' = sid ∧ cid' = cid
  · obtain ⟨rfl, rfl⟩ := hpair
    have h0 : (base.filter
        (fun s => decide (s.studentId = sid' ∧ s.classId = cid'))).length = 0 := by
      rw [List.length_eq_zero]
      exact List.filter_eq_nil_iff.mpr fun s hs => by
        simp only [decide_eq_true_eq]
        exact hbase s hs
    have h1 : (next.filter
        (fun s => decide (s.studentId = sid' ∧ s.classId = cid'))).length ≤ next.length :=
      List.length_filter_le _ _
    omega
  · have h1 : (next.filter
        (fun s => decide (s.studentId = sid' ∧ s.classId = cid'))).length = 0 := by
      rw [List.length_eq_zero]
      exact List.filter_eq_nil_iff.mpr fun s hs => by
        simp only [decide_eq_true_eq]
        intro hp
        obtain ⟨ha, hb⟩ := hnextpair s hs
        exact hpair ⟨hp.1.symm.trans ha, hp.2.symm.trans hb⟩
    have h2 := (hsub.filter
      (fun s => decide (s.studentId = sid' ∧ s.classId = cid'))).length_le
    have h3 := h sid' cid'
    omega

theorem cappedAt10_applyFaceOp (d : FaceModelDataset) (op : FaceOp) (h : cappedAt10 d) :
    cappedAt10 (applyFaceOp d op) := by
  have hcap : ∀ sid' cid', (d.samples.filter
      (fun s => decide (s.studentId = sid' ∧ s.classId = cid'))).length ≤
        MAX_SAMPLES_PER_STUDENT := h
  cases op with
  | analyze sid cid e prev cap now prof =>
    by_cases hlen : e.length = 0
    · unfold applyFaceOp analyzeAndStoreFaceSample
      dsimp only
      rw [if_pos hlen]
      exact h
    · unfold applyFaceOp analyzeAndStoreFaceSample
      dsimp only
      rw [if_neg hlen]
      dsimp only
      intro sid' cid'
      unfold samplesFor
      dsimp only
      refine capped_parts d.samples _ _ sid cid ?_ ?_ ?_ ?_ hcap sid' cid'
      · exact (List.filter_sublist _).trans (List.filter_sublist _)
      · intro s hs
        have hmem := (List.mem_filter.mp hs).2
        simp only [decide_eq_true_eq] at hmem
        exact hmem
      · intro s hs
        have hs' : s ∈ gatherSeededSamples (purgeMismatched d.samples sid e.length) sid cid ++
            [createSample sid cid e cap prev] := by
          rw [truncateSamples_eq] at hs
          exact List.mem_of_mem_drop hs
        rcases List.mem_append.mp hs' with h' | h'
        · exact gatherSeededSamples_mem _ sid cid s h'
        · rw [List.mem_singleton.mp h']
          exact ⟨rfl, rfl⟩
      · exact truncateSamples_length_le _
  | seed sid cid es cap now prof =>
    have hmain : ∀ studs : List (String × StoredStudentProfile), cappedAt10
        ⟨d.samples.filter (fun s => decide ¬(s.studentId = sid ∧ s.classId = cid)) ++
          truncateSamples ((es.filter
            (fun e' => decide (e'.length = (es.headD []).length ∧ 0 < e'.length))).map
              (fun e' => createSample sid cid e' cap none)), studs⟩ := by
      intro studs sid' cid'
      unfold samplesFor
      dsimp only
      refine capped_parts d.samples _ _ sid cid ?_ ?_ ?_ ?_ hcap sid' cid'
      · exact List.filter_sublist _
      · intro s hs
        have hmem := (List.mem_filter.mp hs).2
        simp only [decide_eq_true_eq] at hmem
        exact hmem
      · intro s hs
        have hs' : s ∈ (es.filter
            (fun e' => decide (e'.length = (es.headD []).length ∧ 0 < e'.length))).map
              (fun e' => createSample sid cid e' cap none) := by
          rw [truncateSamples_eq] at hs
          exact List.mem_of_mem_drop hs
        obtain ⟨x, hx, rfl⟩ := List.mem_map.mp hs'
        exact ⟨rfl, rfl⟩
      · exact truncateSamples_length_le _
    unfold applyFaceOp seedFaceEmbeddings
    dsimp only
    split_ifs with h1 h2 h3
    · exact h
    · exact h
    · exact hmain _
    · exact hmain _

theorem cappedAt10_runFaceOps (ops : List FaceOp) (d : FaceModelDataset)
    (h : cappedAt10 d) : cappedAt10 (runFaceOps ops d) := by
  induction ops generalizing d with
  | nil => exact h
  | cons op rest ih => exact ih _ (cappedAt10_applyFaceOp d op h)

/-- C5: after any sequence of analyzeAndStoreFaceSample or seedFaceEmbeddings
operations starting from a fresh dataset, at most 10 samples are retained
per (studentId, classId) pair; and when a student with no prior samples runs
the analysis path once per embedding for one pair, the retained samples for
that pair are exactly the most recently inserted 10 (oldest evicted first)
— as they are for a single bulk seeding. -/
theorem faceSampleCap_spec :
    (∀ (ops : List FaceOp) (sid cid : String),
      (samplesFor (runFaceOps ops emptyDataset) sid cid).length ≤ 10) ∧
    (∀ (d : FaceModelDataset) (sid cid cap now : String) (n : ℕ) (es : List (List ℝ)),
      0 < n → (∀ e ∈ es, e.length = n) → (∀ s ∈ d.samples, s.studentId ≠ sid) →
      samplesFor (insertFaceSamples d sid cid es cap now) sid cid =
        (es.drop (es.length - 10)).map (fun e => createSample sid cid e cap none)) ∧
    (∀ (d : FaceModelDataset) (sid cid cap now : String) (n : ℕ) (es : List (List ℝ)),
      0 < n → es ≠ [] → (∀ e ∈ es, e.length = n) →
      samplesFor (seedFaceEmbeddings d sid cid es cap now none).2 sid cid =
        (es.drop (es.length - 10)).map (fun e => createSample sid cid e cap none)) := by
  refine ⟨?_, ?_, ?_⟩
  · intro ops sid cid
    exact cappedAt10_runFaceOps ops emptyDataset (fun _ _ => by simp [samplesFor, emptyDataset])
      sid cid
  · intro d sid cid cap now n es hn hes hother
    have hd : (⟨d.samples ++ [], d.students⟩ : FaceModelDataset) = d := by
      rw [List.append_nil]
    have hgo := insertFaceSamples_go sid cid cap now n hn es d.samples [] d.students hes
      hother (fun s hs => absurd hs (List.not_mem_nil s)) (by simp)
    rw [hd] at hgo
    unfold samplesFor
    rw [hgo, List.nil_append, List.filter_append]
    have h1 : d.samples.filter (fun s => decide (s.studentId = sid ∧ s.classId = cid)) = [] :=
      List.filter_eq_nil_iff.mpr fun s hs => by
        simp only [decide_eq_true_eq]
        exact fun hp => hother s hs hp.1
    have h2 : ((es.map (fun e => createSample sid cid e cap none)).drop
        ((es.map (fun e => createSample sid cid e cap none)).length -
          MAX_SAMPLES_PER_STUDENT)).filter
        (fun s => decide (s.studentId = sid ∧ s.classId = cid)) =
        (es.map (fun e => createSample sid cid e cap none)).drop
          ((es.map (fun e => createSample sid cid e cap none)).length -
            MAX_SAMPLES_PER_STUDENT) :=
      List.filter_eq_self.mpr fun s hs => by
        obtain ⟨x, hx, rfl⟩ := List.mem_map.mp (List.mem_of_mem_drop hs)
        simp only [decide_eq_true_eq]
        exact ⟨rfl, rfl⟩
    rw [h1, h2, List.nil_append, List.length_map, List.map_drop]
    rfl
  · intro d sid cid cap now n es hn hne hes
    have hvalid : es.filter
        (fun e' => decide (e'.length = (es.headD []).length ∧ 0 < e'.length)) = es := by
      have hhead : (es.headD []).length = n := by
        cases es with
        | nil => exact absurd rfl hne
        | cons a l => exact hes a (List.mem_cons_self a l)
      exact List.filter_eq_self.mpr fun e' he' => by
        simp only [decide_eq_true_eq]
        constructor
        · rw [hes e' he', hhead]
        · rw [hes e' he']
          exact hn
    have hnonempty : es.isEmpty = false := by
      cases es with
      | nil => exact absurd rfl hne
      | cons a l => rfl
    unfold seedFaceEmbeddings
    rw [hnonempty, if_neg Bool.false_ne_true]
    dsimp only
    rw [hvalid]
    rw [hnonempty, if_neg Bool.false_ne_true]
    unfold samplesFor
    dsimp only
    rw [List.filter_append]
    have h1 : (d.samples.filter
        (fun s => decide ¬(s.studentId = sid ∧ s.classId = cid))).filter
          (fun s => decide (s.studentId = sid ∧ s.classId = cid)) = [] :=
      List.filter_eq_nil_iff.mpr fun s hs => by
        have hmem := (List.mem_filter.mp hs).2
        simp only [decide_eq_true_eq] at hmem ⊢
        exact hmem
    have h2 : (truncateSamples (es.map (fun e' => createSample sid cid e' cap none))).filter
        (fun s => decide (s.studentId = sid ∧ s.classId = cid)) =
        truncateSamples (es.map (fun e' => createSample sid cid e' cap none)) :=
      List.filter_eq_self.mpr fun s hs => by
        rw [truncateSamples_eq] at hs
        obtain ⟨x, hx, rfl⟩ := List.mem_map.mp (List.mem_of_mem_drop hs)
        simp only [decide_eq_true_eq]
        exact ⟨rfl, rfl⟩
    rw [h1, h2, List.nil_append, truncateSamples_eq, List.length_map, List.map_drop]
    rfl

theorem faceSampleCap_spec_witness :
    ((0 : ℕ) < 1 ∧ (∀ e ∈ List.replicate 12 [(1 : ℝ)], e.length = 1) ∧
      (∀ s ∈ emptyDataset.samples, s.studentId ≠ "stu")) ∧
    samplesFor (insertFaceSamples emptyDataset "stu" "cls" (List.replicate 12 [(1 : ℝ)])
        "t" "t") "stu" "cls" =
      ((List.replicate 12 [(1 : ℝ)]).drop ((List.replicate 12 [(1 : ℝ)]).length - 10)).map
        (fun e => createSample "stu" "cls" e "t" none) ∧
    (samplesFor (insertFaceSamples emptyDataset "stu" "cls" (List.replicate 12 [(1 : ℝ)])
        "t" "t") "stu" "cls").length = 10 := by
  have hes : ∀ e ∈ List.replicate 12 [(1 : ℝ)], e.length = 1 := by
    intro e he
    rw [List.eq_of_mem_replicate he]
    rfl
  have hemp : ∀ s ∈ emptyDataset.samples, s.studentId ≠ "stu" :=
    fun s hs => absurd hs (List.not_mem_nil s)
  have h := faceSampleCap_spec.2.1 emptyDataset "stu" "cls" "t" "t" 1
    (List.replicate 12 [(1 : ℝ)]) (by norm_num) hes hemp
  refine ⟨⟨by norm_num, hes, hemp⟩, h, ?_⟩
  rw [h]
  simp
